import Mathlib

/-!
Verification development for the Malifaux crew-recommendation engine
(`scripts/pipeline/crew_recommender.py`).

The Python source is shallowly embedded below.  Conventions:

* Python `float` values are modelled as exact rationals (`ℚ`); the one
  place where a transcendental function is applied (`np.log` in
  `get_pmi`) is modelled over `ℝ` with `Real.log`.
* numpy arrays (`cooccurrence`, `appearance_counts`) are modelled as
  total functions from indices, initially constantly `0`.
* Python dictionaries that are built by insertion and read with `.get`
  are modelled as association lists read by first match (keys built by
  the source are unique, so first match agrees with `dict` semantics).
* Python `set` values are used by the source only for emptiness tests,
  membership tests, sizes and for picking an arbitrary element for a
  reason string; they are modelled as lists, with "arbitrary element"
  modelled as the first element in first-occurrence order and sizes
  taken after deduplication.
* `str.lower` is modelled as a character-wise `Char.toLower` map and
  the Python substring test `a in b` as a contiguous-sublist test.
-/

/-! ### Small string and association-list helpers -/

/-- Python `str.lower()` (character-wise lowering). -/
def strLower (s : String) : String := ⟨s.data.map Char.toLower⟩

/-- Does `needle` occur as a contiguous segment of `hay`? -/
def segIn (needle : List Char) : List Char → Bool
  | [] => needle.isEmpty
  | c :: rest => needle.isPrefixOf (c :: rest) || segIn needle rest

/-- Python `a in b` on strings (substring test). -/
def strIn (a b : String) : Bool := segIn a.data b.data

/-- First-match lookup in an association list (Python `dict.get`). -/
def lookupKey {α : Type} : List (String × α) → String → Option α
  | [], _ => none
  | (k2, v) :: t, k => if k2 = k then some v else lookupKey t k

/-- Index of the first occurrence of `x` (the source's `id_to_idx`
dictionary; the id lists it is built from have no duplicates). -/
def idxOf? : List String → String → Option ℕ
  | [], _ => none
  | y :: t, x => if y = x then some 0 else (idxOf? t x).map (· + 1)

/-- First-occurrence deduplication, used to model Python `set`
iteration/`list(set(...))` deterministically. -/
def dedupAux : List String → List String → List String
  | [], _ => []
  | x :: t, seen => if x ∈ seen then dedupAux t seen else x :: dedupAux t (x :: seen)

def dedupFirst (l : List String) : List String := dedupAux l []

/-- Python set intersection `set a & set b`, as the sublist of `a`
whose elements occur in `b`. -/
def interList (a b : List String) : List String := a.filter (fun x => x ∈ b)

/-- First element of a list of strings (Python `list(s)[0]`; the source
only evaluates it on nonempty lists). -/
def headStr (l : List String) : String := l.headD ""

/-! ### Configuration (`DEFAULT_CONFIG` and `load_config`)

The typed view below carries the sections of the configuration that the
engine reads (`synergy_weights`, `role_targets`, `learning`).  A second,
untyped view used by `load_config` appears further down with claim C10.
-/

structure SynergyWeights where
  same_keyword : ℚ
  master_keyword_match : ℚ
  versatile_in_keyword : ℚ
  out_of_keyword_penalty : ℚ
  condition_producer_consumer : ℚ
  shared_condition_focus : ℚ
  marker_producer_consumer : ℚ
  marker_shared_generation : ℚ
  role_diversity_bonus : ℚ
  role_redundancy_penalty : ℚ
  henchman_bonus : ℚ
  cheap_minion_value : ℚ
  elite_model_value : ℚ
deriving DecidableEq

structure RoleTarget where
  min : ℕ
  ideal : ℕ
  max : ℕ
  weight : ℚ
deriving DecidableEq

structure LearningParams where
  min_cooccurrence : ℕ
  smoothing_factor : ℚ
  recency_weight : ℚ
  win_rate_factor : ℚ
deriving DecidableEq

structure Config where
  synergy_weights : SynergyWeights
  role_targets : List (String × RoleTarget)
  learning : LearningParams
deriving DecidableEq

/-- The values of `DEFAULT_CONFIG` read by the engine. -/
def defaultConfig : Config :=
  { synergy_weights :=
      { same_keyword := 2
        master_keyword_match := 5/2
        versatile_in_keyword := 6/5
        out_of_keyword_penalty := 3/5
        condition_producer_consumer := 9/5
        shared_condition_focus := 3/2
        marker_producer_consumer := 2
        marker_shared_generation := 13/10
        role_diversity_bonus := 6/5
        role_redundancy_penalty := 4/5
        henchman_bonus := 11/10
        cheap_minion_value := 1
        elite_model_value := 11/10 }
    role_targets :=
      [ ("scheme_runner", { min := 1, ideal := 2, max := 3, weight := 1 }),
        ("beater", { min := 1, ideal := 2, max := 3, weight := 1 }),
        ("tank", { min := 0, ideal := 1, max := 2, weight := 4/5 }),
        ("support", { min := 0, ideal := 1, max := 2, weight := 9/10 }),
        ("control", { min := 0, ideal := 1, max := 2, weight := 7/10 }),
        ("summoner", { min := 0, ideal := 1, max := 1, weight := 1/2 }),
        ("ranged_damage", { min := 0, ideal := 1, max := 2, weight := 4/5 }),
        ("condition_engine", { min := 0, ideal := 1, max := 2, weight := 7/10 }) ]
    learning :=
      { min_cooccurrence := 2
        smoothing_factor := 1/10
        recency_weight := 6/5
        win_rate_factor := 3/2 } }

/-! ### Data structures (`Crew`, `ModelProfile`) -/

/-- A tournament crew list (the `Crew` dataclass; `__post_init__` strips
whitespace at construction, so observed crews carry stripped names — the
claims below quantify over all records, which includes those). -/
structure Crew where
  leader : String
  faction : String
  models : List String
  total_cost : Int
  tournament : String
  player : String
  result : String
  date : String
deriving DecidableEq

/-- Extracted profile for a model (the `ModelProfile` dataclass). -/
structure ModelProfile where
  id : String
  name : String
  faction : String
  keywords : List String
  cost : Option Int
  station : String
  roles : List String
  conditions_applied : List String
  conditions_required : List String
  markers_generated : List String
  markers_consumed : List String
  summons : List String
  versatile : Bool
  characteristics : List String
deriving DecidableEq

/-! ### Card database (`CardDatabase`)

The index state built by `_load_cards`: `models` maps id to profile,
`name_to_id` maps lowercased display name to id, `faction_models` and
`keyword_models` map to id lists, all in card-file insertion order. -/

structure CardDatabase where
  models : List (String × ModelProfile)
  name_to_id : List (String × String)
  faction_models : List (String × List String)
  keyword_models : List (String × List String)

/-- The substring-fallback loop of `get_by_name`: first stored name that
contains or is contained in the query, in index insertion order. -/
def CardDatabase.fuzzyLookup (db : CardDatabase) (nameLower : String) : Option ModelProfile :=
  match db.name_to_id.find? (fun p => strIn nameLower p.1 || strIn p.1 nameLower) with
  | some p => lookupKey db.models p.2
  | none => none

/-- `get_by_name`: case-insensitive exact lookup, then fuzzy fallback.
A looked-up id that is the empty string is falsy in Python and also
falls through to the fuzzy loop. -/
def CardDatabase.get_by_name (db : CardDatabase) (name : String) : Option ModelProfile :=
  match lookupKey db.name_to_id (strLower name) with
  | some mid => if mid = "" then db.fuzzyLookup (strLower name) else lookupKey db.models mid
  | none => db.fuzzyLookup (strLower name)

/-- `get_by_id`. -/
def CardDatabase.get_by_id (db : CardDatabase) (model_id : String) : Option ModelProfile :=
  lookupKey db.models model_id

/-- `get_faction_models` (the source indexes `self.models[mid]` directly;
ids in `faction_models` are always present in `models` because both are
built together, so first-match lookup never actually misses). -/
def CardDatabase.get_faction_models (db : CardDatabase) (faction : String) : List ModelProfile :=
  ((lookupKey db.faction_models faction).getD []).filterMap (lookupKey db.models)

/-! ### Co-occurrence matrix (`CooccurrenceMatrix`) -/

@[ext]
structure CooccurrenceMatrix where
  card_db : CardDatabase
  config : Config
  model_ids : List String
  cooccurrence : ℕ → ℕ → ℚ
  appearance_counts : ℕ → ℚ
  n_crews : ℕ

/-- `__init__`: zero matrix and counts over the index's id ordering. -/
def CooccurrenceMatrix.init (db : CardDatabase) (cfg : Config) : CooccurrenceMatrix :=
  { card_db := db
    config := cfg
    model_ids := db.models.map Prod.fst
    cooccurrence := fun _ _ => 0
    appearance_counts := fun _ => 0
    n_crews := 0 }

def CooccurrenceMatrix.n_models (m : CooccurrenceMatrix) : ℕ := m.model_ids.length

/-- The `id_to_idx` dictionary. -/
def CooccurrenceMatrix.id_to_idx (m : CooccurrenceMatrix) (mid : String) : Option ℕ :=
  idxOf? m.model_ids mid

/-- Name-resolution prefix of `add_crew`: member names resolved through
the index (unresolved names silently dropped), then the leader. -/
def CooccurrenceMatrix.resolveIds (m : CooccurrenceMatrix) (crew : Crew) : List String :=
  (crew.models.filterMap (fun n => (m.card_db.get_by_name n).map ModelProfile.id))
    ++ ((m.card_db.get_by_name crew.leader).map ModelProfile.id).toList

/-- `self.appearance_counts[i] += w`. -/
def bumpApp (f : ℕ → ℚ) (i : ℕ) (w : ℚ) : ℕ → ℚ :=
  fun j => if j = i then f j + w else f j

/-- `self.cooccurrence[i, j] += w`. -/
def bumpCo (f : ℕ → ℕ → ℚ) (i j : ℕ) (w : ℚ) : ℕ → ℕ → ℚ :=
  fun a b => if a = i ∧ b = j then f a b + w else f a b

/-- Inner loop of `add_crew`: for each resolvable `mid2` in the tail,
the symmetric pair of cell updates. -/
def innerPairs (idToIdx : String → Option ℕ) (idx1 : ℕ) (w : ℚ) :
    List String → (ℕ → ℕ → ℚ) → ℕ → ℕ → ℚ
  | [], co => co
  | mid2 :: t, co =>
    match idToIdx mid2 with
    | none => innerPairs idToIdx idx1 w t co
    | some idx2 => innerPairs idToIdx idx1 w t (bumpCo (bumpCo co idx1 idx2 w) idx2 idx1 w)

/-- Outer loop of `add_crew`: appearance bump plus pair updates against
the strict tail, skipping unresolvable ids. -/
def outerLoop (idToIdx : String → Option ℕ) (w : ℚ) :
    List String → (ℕ → ℕ → ℚ) × (ℕ → ℚ) → (ℕ → ℕ → ℚ) × (ℕ → ℚ)
  | [], st => st
  | mid1 :: rest, st =>
    match idToIdx mid1 with
    | none => outerLoop idToIdx w rest st
    | some idx1 =>
        outerLoop idToIdx w rest (innerPairs idToIdx idx1 w rest st.1, bumpApp st.2 idx1 w)

/-- `add_crew(crew, weight)`. -/
def CooccurrenceMatrix.add_crew (m : CooccurrenceMatrix) (crew : Crew) (weight : ℚ) :
    CooccurrenceMatrix :=
  let st := outerLoop m.id_to_idx weight (m.resolveIds crew) (m.cooccurrence, m.appearance_counts)
  { m with cooccurrence := st.1, appearance_counts := st.2, n_crews := m.n_crews + 1 }

/-- `get_cooccurrence`. -/
def CooccurrenceMatrix.get_cooccurrence (m : CooccurrenceMatrix) (id1 id2 : String) : ℚ :=
  match m.id_to_idx id1, m.id_to_idx id2 with
  | some idx1, some idx2 => m.cooccurrence idx1 idx2
  | _, _ => 0

/-- The appearance count of a model id (`self.appearance_counts[idx]`,
`0` when the id is not in the index, mirroring how `get_pmi` treats an
absent id as degenerate). -/
def CooccurrenceMatrix.appearanceOf (m : CooccurrenceMatrix) (mid : String) : ℚ :=
  match m.id_to_idx mid with
  | some idx => m.appearance_counts idx
  | none => 0

/-- `get_pmi`. -/
noncomputable def CooccurrenceMatrix.get_pmi (m : CooccurrenceMatrix) (id1 id2 : String) : ℝ :=
  match m.id_to_idx id1, m.id_to_idx id2 with
  | some idx1, some idx2 =>
    let cooc := m.cooccurrence idx1 idx2
    let count1 := m.appearance_counts idx1
    let count2 := m.appearance_counts idx2
    if cooc = 0 ∨ count1 = 0 ∨ count2 = 0 ∨ m.n_crews = 0 then 0
    else
      let p_ab : ℚ := cooc / (m.n_crews : ℚ)
      let p_a : ℚ := count1 / (m.n_crews : ℚ)
      let p_b : ℚ := count2 / (m.n_crews : ℚ)
      let smoothing := m.config.learning.smoothing_factor
      Real.log (((p_ab + smoothing) / (p_a * p_b + smoothing) : ℚ) : ℝ)
  | _, _ => 0

/-! ### Rule-based synergy scorer (`RuleBasedScorer`) -/

structure RuleBasedScorer where
  card_db : CardDatabase
  config : Config

/-- The generic keywords excluded from shared-keyword synergy. -/
def genericKeywords : List String := ["Versatile", "Living", "Undead", "Construct", "Beast"]

/-- `score_pair(model1, model2, leader_keywords)`: multiplicative factor
chain with appended reason strings. -/
def RuleBasedScorer.score_pair (s : RuleBasedScorer) (model1 model2 : ModelProfile)
    (leader_keywords : List String) : ℚ × List String :=
  let w := s.config.synergy_weights
  let score : ℚ := 1
  let reasons : List String := []
  -- Keyword synergy
  let shared_keywords :=
    (interList model1.keywords model2.keywords).filter (fun k => k ∉ genericKeywords)
  let (score, reasons) :=
    if shared_keywords ≠ [] then
      (score * w.same_keyword, reasons ++ ["shared_keyword:" ++ headStr shared_keywords])
    else (score, reasons)
  -- Leader keyword match
  let (score, reasons) :=
    if leader_keywords ≠ [] then
      let m1_matches := interList model1.keywords leader_keywords
      let m2_matches := interList model2.keywords leader_keywords
      if m1_matches ≠ [] ∧ m2_matches ≠ [] then
        (score * w.master_keyword_match, reasons ++ ["both_match_leader_keyword"])
      else (score, reasons)
    else (score, reasons)
  -- Condition synergy, both directions
  let m1_produces := model1.conditions_applied
  let m2_needs := model2.conditions_required
  let (score, reasons) :=
    if interList m1_produces m2_needs ≠ [] then
      (score * w.condition_producer_consumer,
       reasons ++ ["condition_synergy:" ++ headStr (interList m1_produces m2_needs)])
    else (score, reasons)
  let m2_produces := model2.conditions_applied
  let m1_needs := model1.conditions_required
  let (score, reasons) :=
    if interList m2_produces m1_needs ≠ [] then
      (score * w.condition_producer_consumer,
       reasons ++ ["condition_synergy:" ++ headStr (interList m2_produces m1_needs)])
    else (score, reasons)
  let shared_conditions := interList m1_produces m2_produces
  let (score, reasons) :=
    if shared_conditions ≠ [] then
      (score * w.shared_condition_focus,
       reasons ++ ["shared_condition:" ++ headStr shared_conditions])
    else (score, reasons)
  -- Marker synergy, both directions
  let m1_generates := model1.markers_generated
  let m2_consumes := model2.markers_consumed
  let (score, reasons) :=
    if interList m1_generates m2_consumes ≠ [] then
      (score * w.marker_producer_consumer,
       reasons ++ ["marker_synergy:" ++ headStr (interList m1_generates m2_consumes)])
    else (score, reasons)
  let m2_generates := model2.markers_generated
  let m1_consumes := model1.markers_consumed
  let (score, reasons) :=
    if interList m2_generates m1_consumes ≠ [] then
      (score * w.marker_producer_consumer,
       reasons ++ ["marker_synergy:" ++ headStr (interList m2_generates m1_consumes)])
    else (score, reasons)
  -- Role diversity
  let m1_roles := model1.roles
  let m2_roles := model2.roles
  let (score, reasons) :=
    if interList m1_roles m2_roles = [] then
      (score * w.role_diversity_bonus, reasons ++ ["role_diversity"])
    else if 1 < (dedupFirst (interList m1_roles m2_roles)).length then
      (score * w.role_redundancy_penalty, reasons ++ ["role_overlap"])
    else (score, reasons)
  (score, reasons)

/-- The `Counter` of roles over the current crew, read at one role. -/
def roleCount (current_crew : List ModelProfile) (role : String) : ℕ :=
  (current_crew.map (fun mdl => mdl.roles.count role)).sum

/-- One step of the role-balance loop of `score_addition`. -/
def roleBalanceStep (candidate : ModelProfile) (current_crew : List ModelProfile)
    (acc : ℚ × List String) (rt : String × RoleTarget) : ℚ × List String :=
  let (role, target) := rt
  let current_count := roleCount current_crew role
  if role ∈ candidate.roles then
    if current_count < target.min then
      (acc.1 + target.weight * (3/10), acc.2 ++ ["fills_" ++ role ++ "_gap"])
    else if current_count < target.ideal then
      (acc.1 + target.weight * (1/10), acc.2)
    else if target.max ≤ current_count then
      (acc.1 - target.weight * (2/10), acc.2 ++ ["excess_" ++ role])
    else acc
  else acc

/-- `score_addition(candidate, current_crew, leader)`. -/
def RuleBasedScorer.score_addition (s : RuleBasedScorer) (candidate : ModelProfile)
    (current_crew : List ModelProfile) (leader : Option ModelProfile) : ℚ × List String :=
  if current_crew = [] then (1, ["empty_crew"])
  else
    let leader_keywords := match leader with
      | some l => l.keywords
      | none => []
    let pairResults := current_crew.map (fun ex => s.score_pair candidate ex leader_keywords)
    let total_score := (pairResults.map Prod.fst).sum
    let all_reasons := (pairResults.map Prod.snd).flatten
    let avg_score := total_score / (current_crew.length : ℚ)
    let st := s.config.role_targets.foldl (roleBalanceStep candidate current_crew) (0, all_reasons)
    (avg_score + st.1, dedupFirst st.2)

/-! ### Crew recommender (`CrewRecommender`) -/

@[ext]
structure CrewRecommender where
  card_db : CardDatabase
  config : Config
  cooccurrence : CooccurrenceMatrix
  rule_scorer : RuleBasedScorer
  collaborative_weight : ℚ
  rule_weight : ℚ

/-- `__init__`: build the matrix and the rule scorer over the same
database and configuration; blend weights 0.7 / 0.3. -/
def CrewRecommender.init (db : CardDatabase) (cfg : Config) : CrewRecommender :=
  { card_db := db
    config := cfg
    cooccurrence := CooccurrenceMatrix.init db cfg
    rule_scorer := { card_db := db, config := cfg }
    collaborative_weight := 7/10
    rule_weight := 3/10 }

/-- The per-crew weight computed inside `train`. -/
def trainWeight (cfg : Config) (crew : Crew) : ℚ :=
  if crew.result ≠ "" then
    if strIn "win" (strLower crew.result) || crew.result = "W" then
      cfg.learning.win_rate_factor
    else if strIn "loss" (strLower crew.result) || crew.result = "L" then 4/5
    else 1
  else 1

/-- `train(crews)`. -/
def CrewRecommender.train (r : CrewRecommender) (crews : List Crew) : CrewRecommender :=
  crews.foldl
    (fun acc crew =>
      { acc with cooccurrence := acc.cooccurrence.add_crew crew (trainWeight acc.config crew) })
    r

/-- Resolution of the current member names inside `recommend`. -/
def CrewRecommender.currentProfiles (r : CrewRecommender) (current_models : List String) :
    List ModelProfile :=
  current_models.filterMap (fun n => r.card_db.get_by_name n)

/-- The `current_ids` set, as a first-occurrence-deduplicated list. -/
def CrewRecommender.currentIds (r : CrewRecommender) (current_models : List String) :
    List String :=
  dedupFirst ((r.currentProfiles current_models).map ModelProfile.id)

/-- Leader resolution inside `recommend`: an explicitly named leader is
looked up; otherwise the first Master-station profile among the current
models (an absent or empty name argument is falsy in Python). -/
def CrewRecommender.leaderProfile (r : CrewRecommender) (current_models : List String)
    (leader : Option String) : Option ModelProfile :=
  if (leader.getD "") ≠ "" then r.card_db.get_by_name (leader.getD "")
  else if r.currentProfiles current_models ≠ [] then
    (r.currentProfiles current_models).find? (fun p => p.station = "Master")
  else none

/-- Candidate pool selection inside `recommend`: explicit faction filter,
else the resolved leader's faction, else the entire index. -/
def CrewRecommender.candidatePool (r : CrewRecommender) (current_models : List String)
    (faction : Option String) (leader : Option String) : List ModelProfile :=
  if (faction.getD "") ≠ "" then r.card_db.get_faction_models (faction.getD "")
  else
    match r.leaderProfile current_models leader with
    | some lp => r.card_db.get_faction_models lp.faction
    | none => r.card_db.models.map Prod.snd

/-- `candidates = [c for c in candidates if c.id not in current_ids]`. -/
def CrewRecommender.filteredCandidates (r : CrewRecommender) (current_models : List String)
    (faction : Option String) (leader : Option String) : List ModelProfile :=
  (r.candidatePool current_models faction leader).filter
    (fun c => c.id ∉ r.currentIds current_models)

/-- `_collaborative_score(candidate, current_ids)`. -/
noncomputable def CrewRecommender.collaborative_score (r : CrewRecommender)
    (candidate : ModelProfile) (current_ids : List String) : ℝ :=
  if current_ids = [] ∨ r.cooccurrence.n_crews = 0 then 1
  else
    let total_pmi :=
      (current_ids.map (fun mid => r.cooccurrence.get_pmi candidate.id mid)).sum
    let avg_pmi := total_pmi / (current_ids.length : ℝ)
    let score := 1 + avg_pmi / 5
    max (1/10) (min 2 score)

/-- One recommendation record (the dict appended to `scored`). -/
structure Recommendation where
  model : String
  model_id : String
  score : ℝ
  collaborative_score : ℝ
  rule_score : ℚ
  reasons : List String
  cost : Option Int
  roles : List String
  keywords : List String

/-- Scoring of one candidate inside `recommend` (blend of collaborative
and rule-based scores). -/
noncomputable def CrewRecommender.scoreCandidate (r : CrewRecommender)
    (current_models : List String) (leader : Option String) (candidate : ModelProfile) :
    Recommendation :=
  let collab := r.collaborative_score candidate (r.currentIds current_models)
  let ruleRes := r.rule_scorer.score_addition candidate (r.currentProfiles current_models)
    (r.leaderProfile current_models leader)
  { model := candidate.name
    model_id := candidate.id
    score := (r.collaborative_weight : ℝ) * collab + (r.rule_weight : ℝ) * (ruleRes.1 : ℝ)
    collaborative_score := collab
    rule_score := ruleRes.1
    reasons := ruleRes.2
    cost := candidate.cost
    roles := candidate.roles
    keywords := candidate.keywords }

/-- The `scored` list before sorting, in candidate-pool order. -/
noncomputable def CrewRecommender.scoredList (r : CrewRecommender)
    (current_models : List String) (faction : Option String) (leader : Option String) :
    List Recommendation :=
  (r.filteredCandidates current_models faction leader).map
    (r.scoreCandidate current_models leader)

open Classical in
/-- The comparator of `scored.sort(key=lambda x: x['score'], reverse=True)`:
`a` may stay before `b` iff `a` has the larger-or-equal score.  Python's
sort is stable; `List.mergeSort` with this comparator is its model. -/
noncomputable def scoreGe (a b : Recommendation) : Bool := decide (b.score ≤ a.score)

/-- `recommend(current_models, faction, leader, n_recommendations)`. -/
noncomputable def CrewRecommender.recommend (r : CrewRecommender)
    (current_models : List String) (faction : Option String) (leader : Option String)
    (n_recommendations : ℕ) : List Recommendation :=
  ((r.scoredList current_models faction leader).mergeSort scoreGe).take n_recommendations

/-! ### Persistence (`save` / `load`) -/

/-- The pickled `state` dict written by `save`. -/
structure SavedState where
  cooccurrence : ℕ → ℕ → ℚ
  appearance_counts : ℕ → ℚ
  n_crews : ℕ
  model_ids : List String
  config : Config

/-- `save`. -/
def CrewRecommender.save (r : CrewRecommender) : SavedState :=
  { cooccurrence := r.cooccurrence.cooccurrence
    appearance_counts := r.cooccurrence.appearance_counts
    n_crews := r.cooccurrence.n_crews
    model_ids := r.cooccurrence.model_ids
    config := r.config }

/-- `load`: assigns the matrix arrays, the crew count and the
recommender-level config.  Note that the source does *not* assign
`self.cooccurrence.model_ids`, `self.cooccurrence.config` or
`self.rule_scorer.config`; they keep the values from construction. -/
def CrewRecommender.load (r : CrewRecommender) (state : SavedState) : CrewRecommender :=
  { r with
    cooccurrence := { r.cooccurrence with
      cooccurrence := state.cooccurrence
      appearance_counts := state.appearance_counts
      n_crews := state.n_crews }
    config := state.config }

/-! ### Untyped configuration and `load_config`

`load_config` works on the JSON-like nested dictionaries directly, so it
is modelled over an untyped value type.  Python object semantics that
matter here: `DEFAULT_CONFIG.copy()` is a *shallow* copy — the copy's
values alias the same nested dict objects as the module-level
`DEFAULT_CONFIG` — so `config[key].update(value)` mutates the shared
nested dict, while `config[key] = value` rebinds only the copy.  The
module-level dict is threaded through explicitly as state.  JSON objects
have unique keys, so each user key is processed at most once and `key in
config` coincides with `key in DEFAULT_CONFIG`. -/

inductive CVal where
  | num : ℚ → CVal
  | str : String → CVal
  | arr : List CVal → CVal
  | dict : List (String × CVal) → CVal

abbrev CDict := List (String × CVal)

/-- Python `d[k] = v`: replace in place if the key exists, else append. -/
def setKey : CDict → String → CVal → CDict
  | [], k, v => [(k, v)]
  | (k2, v2) :: t, k, v => if k2 = k then (k, v) :: t else (k2, v2) :: setKey t k v

/-- Python `d.update(u)`. -/
def dictUpdate (d : CDict) (u : CDict) : CDict :=
  u.foldl (fun acc kv => setKey acc kv.1 kv.2) d

/-- `d[k].update(u)` for a nested dict at key `k` (no-op if the value at
`k` is not a dict; the source would raise there, but `load_config` only
reaches this with `isinstance(value, dict)` checked on the user value
and a well-formed default where the shared keys hold dicts). -/
def updateNested (d : CDict) (k : String) (u : CDict) : CDict :=
  match lookupKey d k with
  | some (CVal.dict inner) => setKey d k (CVal.dict (dictUpdate inner u))
  | _ => d

/-- The module-level `DEFAULT_CONFIG` dictionary, in full. -/
def DEFAULT_CONFIG : CDict :=
  [ ("version", CVal.str "1.0.0"),
    ("synergy_weights", CVal.dict
      [ ("same_keyword", CVal.num 2),
        ("master_keyword_match", CVal.num (5/2)),
        ("versatile_in_keyword", CVal.num (6/5)),
        ("out_of_keyword_penalty", CVal.num (3/5)),
        ("condition_producer_consumer", CVal.num (9/5)),
        ("shared_condition_focus", CVal.num (3/2)),
        ("marker_producer_consumer", CVal.num 2),
        ("marker_shared_generation", CVal.num (13/10)),
        ("role_diversity_bonus", CVal.num (6/5)),
        ("role_redundancy_penalty", CVal.num (4/5)),
        ("henchman_bonus", CVal.num (11/10)),
        ("cheap_minion_value", CVal.num 1),
        ("elite_model_value", CVal.num (11/10)) ]),
    ("role_targets", CVal.dict
      [ ("scheme_runner", CVal.dict
          [ ("min", CVal.num 1), ("ideal", CVal.num 2), ("max", CVal.num 3),
            ("weight", CVal.num 1),
            ("description", CVal.str "Need mobility for schemes") ]),
        ("beater", CVal.dict
          [ ("min", CVal.num 1), ("ideal", CVal.num 2), ("max", CVal.num 3),
            ("weight", CVal.num 1),
            ("description", CVal.str "Need damage dealing") ]),
        ("tank", CVal.dict
          [ ("min", CVal.num 0), ("ideal", CVal.num 1), ("max", CVal.num 2),
            ("weight", CVal.num (4/5)),
            ("description", CVal.str "Survivability anchor") ]),
        ("support", CVal.dict
          [ ("min", CVal.num 0), ("ideal", CVal.num 1), ("max", CVal.num 2),
            ("weight", CVal.num (9/10)),
            ("description", CVal.str "Crew enhancement") ]),
        ("control", CVal.dict
          [ ("min", CVal.num 0), ("ideal", CVal.num 1), ("max", CVal.num 2),
            ("weight", CVal.num (7/10)),
            ("description", CVal.str "Enemy manipulation") ]),
        ("summoner", CVal.dict
          [ ("min", CVal.num 0), ("ideal", CVal.num 1), ("max", CVal.num 1),
            ("weight", CVal.num (1/2)),
            ("description", CVal.str "Usually the master") ]),
        ("ranged_damage", CVal.dict
          [ ("min", CVal.num 0), ("ideal", CVal.num 1), ("max", CVal.num 2),
            ("weight", CVal.num (4/5)),
            ("description", CVal.str "Threat projection") ]),
        ("condition_engine", CVal.dict
          [ ("min", CVal.num 0), ("ideal", CVal.num 1), ("max", CVal.num 2),
            ("weight", CVal.num (7/10)),
            ("description", CVal.str "Condition synergy") ]) ]),
    ("crew_constraints", CVal.dict
      [ ("target_soulstones", CVal.num 50),
        ("min_soulstones", CVal.num 45),
        ("max_soulstones", CVal.num 50),
        ("soulstone_cache_min", CVal.num 3),
        ("soulstone_cache_max", CVal.num 7),
        ("min_models", CVal.num 5),
        ("max_models", CVal.num 10) ]),
    ("learning", CVal.dict
      [ ("min_cooccurrence", CVal.num 2),
        ("smoothing_factor", CVal.num (1/10)),
        ("recency_weight", CVal.num (6/5)),
        ("win_rate_factor", CVal.num (3/2)) ]),
    ("faction_themes", CVal.dict
      [ ("Arcanists", CVal.dict
          [ ("preferred_conditions", CVal.arr [CVal.str "burning", CVal.str "focused"]),
            ("preferred_markers",
             CVal.arr [CVal.str "pyre", CVal.str "ice_pillar", CVal.str "scrap"]),
            ("style", CVal.str "magic_and_constructs") ]),
        ("Bayou", CVal.dict
          [ ("preferred_conditions", CVal.arr [CVal.str "poison", CVal.str "injured"]),
            ("preferred_markers", CVal.arr [CVal.str "scheme_marker"]),
            ("style", CVal.str "chaotic_numbers") ]),
        ("Guild", CVal.dict
          [ ("preferred_conditions",
             CVal.arr [CVal.str "slow", CVal.str "stunned", CVal.str "burning"]),
            ("preferred_markers", CVal.arr [CVal.str "scheme_marker"]),
            ("style", CVal.str "control_and_armor") ]),
        ("Neverborn", CVal.dict
          [ ("preferred_conditions",
             CVal.arr [CVal.str "stunned", CVal.str "distracted", CVal.str "slow"]),
            ("preferred_markers", CVal.arr [CVal.str "shadow"]),
            ("style", CVal.str "movement_and_wp") ]),
        ("Outcasts", CVal.dict
          [ ("preferred_conditions", CVal.arr [CVal.str "burning", CVal.str "injured"]),
            ("preferred_markers", CVal.arr [CVal.str "scrap", CVal.str "scheme_marker"]),
            ("style", CVal.str "flexible_mercenary") ]),
        ("Resurrectionists", CVal.dict
          [ ("preferred_conditions",
             CVal.arr [CVal.str "poison", CVal.str "injured", CVal.str "slow"]),
            ("preferred_markers", CVal.arr [CVal.str "corpse"]),
            ("style", CVal.str "undead_recursion") ]),
        ("Ten Thunders", CVal.dict
          [ ("preferred_conditions",
             CVal.arr [CVal.str "focused", CVal.str "fast", CVal.str "distracted"]),
            ("preferred_markers", CVal.arr [CVal.str "shadow", CVal.str "scheme_marker"]),
            ("style", CVal.str "versatile_synergy") ]),
        ("Explorer Society", CVal.dict
          [ ("preferred_conditions", CVal.arr [CVal.str "shielded", CVal.str "focused"]),
            ("preferred_markers",
             CVal.arr [CVal.str "lodestone", CVal.str "scheme_marker"]),
            ("style", CVal.str "artifacts_terrain") ]) ]) ]

/-- `load_config(config_path)`.  The state is the current contents of the
module-level `DEFAULT_CONFIG` object; `user` is the parsed user config
file (`none` when no path is given or the file does not exist).  Returns
the function's result together with the module-level dict's contents
after the call.  A merge into a nested section that exists in the
shallow copy writes through to the shared nested dict of the module
state; a top-level rebind touches only the copy. -/
def load_config (globalDefault : CDict) (user : Option CDict) : CDict × CDict :=
  match user with
  | none => (globalDefault, globalDefault)
  | some u =>
    u.foldl
      (fun st kv =>
        match kv.2 with
        | CVal.dict uv =>
          if (lookupKey st.1 kv.1).isSome then
            (updateNested st.1 kv.1 uv, updateNested st.2 kv.1 uv)
          else (setKey st.1 kv.1 kv.2, st.2)
        | v => (setKey st.1 kv.1 v, st.2))
      (globalDefault, globalDefault)

/-! ### Counting characterization of `add_crew`

`add_crew` adds, to every matrix cell `(i, j)`, the crew weight times
the number of ordered position pairs `p < q` in the resolved id list
whose indices hit `(i, j)` in either orientation, and to every
appearance cell `i` the weight times the number of occurrences that
resolve to `i`. -/

/-- Number of entries of `l` whose index under `f` is `i`. -/
def hitCount (f : String → Option ℕ) (l : List String) (i : ℕ) : ℕ :=
  l.countP (fun mid => decide (f mid = some i))

/-- Number of position pairs `p < q` of `l` contributing to cell `(i, j)`
(in either orientation; a diagonal cell is hit twice by one pair). -/
def pairHits (f : String → Option ℕ) (i j : ℕ) : List String → ℕ
  | [] => 0
  | mid1 :: rest =>
    (if f mid1 = some i then hitCount f rest j else 0) +
      ((if f mid1 = some j then hitCount f rest i else 0) + pairHits f i j rest)

theorem hitCount_cons (f : String → Option ℕ) (x : String) (l : List String) (i : ℕ) :
    hitCount f (x :: l) i = (if f x = some i then 1 else 0) + hitCount f l i := by
  simp only [hitCount, List.countP_cons]
  by_cases h : f x = some i <;> simp [h] <;> omega

/-- Cell value after the symmetric pair of `+= weight` updates. -/
theorem doubleBump_apply (g : ℕ → ℕ → ℚ) (idx1 idx2 : ℕ) (w : ℚ) (i j : ℕ) :
    bumpCo (bumpCo g idx1 idx2 w) idx2 idx1 w i j =
      g i j + ((if idx1 = i then (if idx2 = j then w else 0) else 0) +
        (if idx2 = i then (if idx1 = j then w else 0) else 0)) := by
  simp only [bumpCo]
  split_ifs <;> first | ring1 | (exfalso; omega)

theorem innerPairs_eval (f : String → Option ℕ) (idx1 : ℕ) (w : ℚ) (rest : List String)
    (co : ℕ → ℕ → ℚ) (i j : ℕ) :
    innerPairs f idx1 w rest co i j =
      co i j + w * ((if idx1 = i then (hitCount f rest j : ℚ) else 0) +
        (if idx1 = j then (hitCount f rest i : ℚ) else 0)) := by
  induction rest generalizing co with
  | nil => simp [innerPairs, hitCount]
  | cons mid2 t ih =>
    rcases h2 : f mid2 with _ | idx2
    · simp [innerPairs, h2, ih, hitCount_cons]
    · simp only [innerPairs, h2, hitCount_cons, Option.some.injEq]
      rw [ih, doubleBump_apply]
      by_cases e1 : idx1 = i <;> by_cases e2 : idx1 = j <;>
        by_cases e3 : idx2 = i <;> by_cases e4 : idx2 = j <;>
        simp_all <;> push_cast <;> ring

theorem pairHits_cons_some (f : String → Option ℕ) (i j : ℕ) (mid1 : String)
    (rest : List String) (idx1 : ℕ) (h : f mid1 = some idx1) :
    pairHits f i j (mid1 :: rest) =
      ((if idx1 = i then hitCount f rest j else 0) +
        ((if idx1 = j then hitCount f rest i else 0) + pairHits f i j rest)) := by
  simp [pairHits, h]

theorem pairHits_cons_none (f : String → Option ℕ) (i j : ℕ) (mid1 : String)
    (rest : List String) (h : f mid1 = none) :
    pairHits f i j (mid1 :: rest) = pairHits f i j rest := by
  simp [pairHits, h]

theorem outerLoop_fst (f : String → Option ℕ) (w : ℚ) (mids : List String)
    (st : (ℕ → ℕ → ℚ) × (ℕ → ℚ)) (i j : ℕ) :
    (outerLoop f w mids st).1 i j = st.1 i j + w * (pairHits f i j mids : ℚ) := by
  induction mids generalizing st with
  | nil => simp [outerLoop, pairHits]
  | cons mid1 rest ih =>
    rcases h1 : f mid1 with _ | idx1
    · rw [outerLoop, h1, ih, pairHits_cons_none f i j mid1 rest h1]
    · rw [outerLoop, h1, ih, pairHits_cons_some f i j mid1 rest idx1 h1]
      simp only [innerPairs_eval]
      by_cases e1 : idx1 = i <;> by_cases e2 : idx1 = j <;>
        simp [e1, e2] <;> push_cast <;> ring

theorem outerLoop_snd (f : String → Option ℕ) (w : ℚ) (mids : List String)
    (st : (ℕ → ℕ → ℚ) × (ℕ → ℚ)) (i : ℕ) :
    (outerLoop f w mids st).2 i = st.2 i + w * (hitCount f mids i : ℚ) := by
  induction mids generalizing st with
  | nil => simp [outerLoop, hitCount]
  | cons mid1 rest ih =>
    rcases h1 : f mid1 with _ | idx1
    · rw [outerLoop, h1, ih, hitCount_cons]
      simp [h1]
    · rw [outerLoop, h1, ih, hitCount_cons]
      simp only [h1, Option.some.injEq, bumpApp]
      by_cases e : idx1 = i
      · subst e
        simp
        push_cast
        ring
      · have e2 : ¬ i = idx1 := fun hh => e hh.symm
        simp [e, e2]

theorem add_crew_cooccurrence (m : CooccurrenceMatrix) (c : Crew) (w : ℚ) (i j : ℕ) :
    (m.add_crew c w).cooccurrence i j =
      m.cooccurrence i j + w * (pairHits m.id_to_idx i j (m.resolveIds c) : ℚ) :=
  outerLoop_fst _ _ _ _ i j

theorem add_crew_appearance (m : CooccurrenceMatrix) (c : Crew) (w : ℚ) (i : ℕ) :
    (m.add_crew c w).appearance_counts i =
      m.appearance_counts i + w * (hitCount m.id_to_idx (m.resolveIds c) i : ℚ) :=
  outerLoop_snd _ _ _ _ i

theorem add_crew_n_crews (m : CooccurrenceMatrix) (c : Crew) (w : ℚ) :
    (m.add_crew c w).n_crews = m.n_crews + 1 := rfl

theorem add_crew_model_ids (m : CooccurrenceMatrix) (c : Crew) (w : ℚ) :
    (m.add_crew c w).model_ids = m.model_ids := rfl

theorem add_crew_card_db (m : CooccurrenceMatrix) (c : Crew) (w : ℚ) :
    (m.add_crew c w).card_db = m.card_db := rfl

theorem add_crew_config (m : CooccurrenceMatrix) (c : Crew) (w : ℚ) :
    (m.add_crew c w).config = m.config := rfl

theorem pairHits_symm (f : String → Option ℕ) (i j : ℕ) (l : List String) :
    pairHits f i j l = pairHits f j i l := by
  induction l with
  | nil => rfl
  | cons mid1 rest ih => simp only [pairHits, ih]; ring

/-- For an off-diagonal cell, the pair count factors as the product of
the two occurrence counts. -/
theorem pairHits_eq_mul (f : String → Option ℕ) (i j : ℕ) (hij : i ≠ j) (l : List String) :
    pairHits f i j l = hitCount f l i * hitCount f l j := by
  induction l with
  | nil => simp [pairHits, hitCount]
  | cons mid1 rest ih =>
    rw [hitCount_cons, hitCount_cons]
    rcases h1 : f mid1 with _ | idx1
    · rw [pairHits_cons_none f i j mid1 rest h1, ih]
      simp
    · rw [pairHits_cons_some f i j mid1 rest idx1 h1, ih]
      by_cases e1 : idx1 = i <;> by_cases e2 : idx1 = j
      · exact absurd (e1.symm.trans e2) hij
      all_goals simp [e1, e2, hij, Ne.symm hij] <;> ring

/-! ### First-occurrence index lemmas -/

theorem idxOf?_eq_none_iff (l : List String) (x : String) :
    idxOf? l x = none ↔ x ∉ l := by
  induction l with
  | nil => simp [idxOf?]
  | cons y t ih =>
    by_cases h : y = x
    · subst h; simp [idxOf?]
    · have h2 : ¬ x = y := fun hh => h hh.symm
      simp [idxOf?, h, Option.map_eq_none', ih, h2]

/-- Two ids with the same first-occurrence index are the same id. -/
theorem idxOf?_inj (l : List String) (x y : String) (n : ℕ)
    (hx : idxOf? l x = some n) (hy : idxOf? l y = some n) : x = y := by
  induction l generalizing n with
  | nil => simp [idxOf?] at hx
  | cons z t ih =>
    by_cases hzx : z = x <;> by_cases hzy : z = y
    · exact hzx.symm.trans hzy
    · exfalso
      simp only [idxOf?, if_pos hzx, if_neg hzy] at hx hy
      rcases Option.map_eq_some'.mp hy with ⟨m, hm, hmm⟩
      have h0 : (0 : ℕ) = n := Option.some.inj hx
      omega
    · exfalso
      simp only [idxOf?, if_neg hzx, if_pos hzy] at hx hy
      rcases Option.map_eq_some'.mp hx with ⟨m, hm, hmm⟩
      have h0 : (0 : ℕ) = n := Option.some.inj hy
      omega
    · simp only [idxOf?, if_neg hzx, if_neg hzy] at hx hy
      rcases Option.map_eq_some'.mp hx with ⟨m, hm, hmm⟩
      rcases Option.map_eq_some'.mp hy with ⟨m2, hm2, hmm2⟩
      have hmx : m2 = m := by omega
      exact ih m hm (hmx ▸ hm2)

/-- When `a` has index `i`, hits at `i` count exactly the occurrences
of `a`. -/
theorem hitCount_eq_count (L l : List String) (a : String) (i : ℕ)
    (h : idxOf? L a = some i) :
    hitCount (idxOf? L) l i = l.count a := by
  rw [List.count_eq_countP, hitCount]
  apply List.countP_congr
  intro mid _
  simp only [decide_eq_true_eq, beq_iff_eq]
  constructor
  · intro hm
    exact idxOf?_inj L mid a i hm h
  · intro hm
    subst hm
    exact h

/-! ### `train` as a fold over `add_crew` -/

/-- The matrix evolution performed by `train`. -/
def trainMat (cfg : Config) (m : CooccurrenceMatrix) (crews : List Crew) :
    CooccurrenceMatrix :=
  crews.foldl (fun acc c => acc.add_crew c (trainWeight cfg c)) m

theorem train_eq (r : CrewRecommender) (crews : List Crew) :
    r.train crews = { r with cooccurrence := trainMat r.config r.cooccurrence crews } := by
  induction crews generalizing r with
  | nil => simp [CrewRecommender.train, trainMat]
  | cons c t ih =>
    rw [CrewRecommender.train, List.foldl_cons, trainMat, List.foldl_cons]
    exact ih { r with cooccurrence := r.cooccurrence.add_crew c (trainWeight r.config c) }

theorem trainMat_model_ids (cfg : Config) (m : CooccurrenceMatrix) (crews : List Crew) :
    (trainMat cfg m crews).model_ids = m.model_ids := by
  induction crews generalizing m with
  | nil => rfl
  | cons c t ih => rw [trainMat, List.foldl_cons]; exact ih _

theorem trainMat_card_db (cfg : Config) (m : CooccurrenceMatrix) (crews : List Crew) :
    (trainMat cfg m crews).card_db = m.card_db := by
  induction crews generalizing m with
  | nil => rfl
  | cons c t ih => rw [trainMat, List.foldl_cons]; exact ih _

theorem trainMat_config (cfg : Config) (m : CooccurrenceMatrix) (crews : List Crew) :
    (trainMat cfg m crews).config = m.config := by
  induction crews generalizing m with
  | nil => rfl
  | cons c t ih => rw [trainMat, List.foldl_cons]; exact ih _

theorem trainMat_n_crews (cfg : Config) (m : CooccurrenceMatrix) (crews : List Crew) :
    (trainMat cfg m crews).n_crews = m.n_crews + crews.length := by
  induction crews generalizing m with
  | nil => rfl
  | cons c t ih =>
    rw [trainMat, List.foldl_cons]
    rw [show (List.foldl (fun acc c => acc.add_crew c (trainWeight cfg c)) _ t) =
      trainMat cfg (m.add_crew c (trainWeight cfg c)) t from rfl, ih]
    rw [add_crew_n_crews, List.length_cons]
    omega

theorem trainMat_cooccurrence (cfg : Config) (m : CooccurrenceMatrix) (crews : List Crew)
    (i j : ℕ) :
    (trainMat cfg m crews).cooccurrence i j =
      m.cooccurrence i j +
        (crews.map (fun c =>
          trainWeight cfg c * (pairHits m.id_to_idx i j (m.resolveIds c) : ℚ))).sum := by
  induction crews generalizing m with
  | nil => simp [trainMat]
  | cons c t ih =>
    rw [trainMat, List.foldl_cons,
      show (List.foldl (fun acc c => acc.add_crew c (trainWeight cfg c)) _ t) =
        trainMat cfg (m.add_crew c (trainWeight cfg c)) t from rfl, ih]
    rw [add_crew_cooccurrence]
    have h1 : (m.add_crew c (trainWeight cfg c)).id_to_idx = m.id_to_idx := by
      funext mid
      rw [CooccurrenceMatrix.id_to_idx, CooccurrenceMatrix.id_to_idx, add_crew_model_ids]
    have h2 : ∀ c2 : Crew,
        (m.add_crew c (trainWeight cfg c)).resolveIds c2 = m.resolveIds c2 := by
      intro c2
      rw [CooccurrenceMatrix.resolveIds, CooccurrenceMatrix.resolveIds, add_crew_card_db]
    simp only [h1, h2, List.map_cons, List.sum_cons]
    ring

theorem trainMat_appearance (cfg : Config) (m : CooccurrenceMatrix) (crews : List Crew)
    (i : ℕ) :
    (trainMat cfg m crews).appearance_counts i =
      m.appearance_counts i +
        (crews.map (fun c =>
          trainWeight cfg c * (hitCount m.id_to_idx (m.resolveIds c) i : ℚ))).sum := by
  induction crews generalizing m with
  | nil => simp [trainMat]
  | cons c t ih =>
    rw [trainMat, List.foldl_cons,
      show (List.foldl (fun acc c => acc.add_crew c (trainWeight cfg c)) _ t) =
        trainMat cfg (m.add_crew c (trainWeight cfg c)) t from rfl, ih]
    rw [add_crew_appearance]
    have h1 : (m.add_crew c (trainWeight cfg c)).id_to_idx = m.id_to_idx := by
      funext mid
      rw [CooccurrenceMatrix.id_to_idx, CooccurrenceMatrix.id_to_idx, add_crew_model_ids]
    have h2 : ∀ c2 : Crew,
        (m.add_crew c (trainWeight cfg c)).resolveIds c2 = m.resolveIds c2 := by
      intro c2
      rw [CooccurrenceMatrix.resolveIds, CooccurrenceMatrix.resolveIds, add_crew_card_db]
    simp only [h1, h2, List.map_cons, List.sum_cons]
    ring

/-! ### Arbitrary `add_crew` sequences -/

/-- A sequence of `add_crew` calls with arbitrary weights. -/
def applyCrews (m : CooccurrenceMatrix) (ops : List (Crew × ℚ)) : CooccurrenceMatrix :=
  ops.foldl (fun acc op => acc.add_crew op.1 op.2) m

theorem applyCrews_model_ids (m : CooccurrenceMatrix) (ops : List (Crew × ℚ)) :
    (applyCrews m ops).model_ids = m.model_ids := by
  induction ops generalizing m with
  | nil => rfl
  | cons op t ih => rw [applyCrews, List.foldl_cons]; exact ih _

theorem applyCrews_card_db (m : CooccurrenceMatrix) (ops : List (Crew × ℚ)) :
    (applyCrews m ops).card_db = m.card_db := by
  induction ops generalizing m with
  | nil => rfl
  | cons op t ih => rw [applyCrews, List.foldl_cons]; exact ih _

theorem applyCrews_id_to_idx (m : CooccurrenceMatrix) (ops : List (Crew × ℚ)) :
    (applyCrews m ops).id_to_idx = m.id_to_idx := by
  funext mid
  rw [CooccurrenceMatrix.id_to_idx, CooccurrenceMatrix.id_to_idx, applyCrews_model_ids]

theorem applyCrews_resolveIds (m : CooccurrenceMatrix) (ops : List (Crew × ℚ)) (c : Crew) :
    (applyCrews m ops).resolveIds c = m.resolveIds c := by
  rw [CooccurrenceMatrix.resolveIds, CooccurrenceMatrix.resolveIds, applyCrews_card_db]

theorem applyCrews_cooccurrence (m : CooccurrenceMatrix) (ops : List (Crew × ℚ)) (i j : ℕ) :
    (applyCrews m ops).cooccurrence i j =
      m.cooccurrence i j +
        (ops.map (fun op =>
          op.2 * (pairHits m.id_to_idx i j (m.resolveIds op.1) : ℚ))).sum := by
  induction ops generalizing m with
  | nil => simp [applyCrews]
  | cons op t ih =>
    rw [applyCrews, List.foldl_cons,
      show (List.foldl (fun acc op => acc.add_crew op.1 op.2) _ t) =
        applyCrews (m.add_crew op.1 op.2) t from rfl, ih]
    rw [add_crew_cooccurrence]
    have h1 : (m.add_crew op.1 op.2).id_to_idx = m.id_to_idx := by
      funext mid
      rw [CooccurrenceMatrix.id_to_idx, CooccurrenceMatrix.id_to_idx, add_crew_model_ids]
    have h2 : ∀ c2 : Crew, (m.add_crew op.1 op.2).resolveIds c2 = m.resolveIds c2 := by
      intro c2
      rw [CooccurrenceMatrix.resolveIds, CooccurrenceMatrix.resolveIds, add_crew_card_db]
    simp only [h1, h2, List.map_cons, List.sum_cons]
    ring

theorem applyCrews_appearance (m : CooccurrenceMatrix) (ops : List (Crew × ℚ)) (i : ℕ) :
    (applyCrews m ops).appearance_counts i =
      m.appearance_counts i +
        (ops.map (fun op =>
          op.2 * (hitCount m.id_to_idx (m.resolveIds op.1) i : ℚ))).sum := by
  induction ops generalizing m with
  | nil => simp [applyCrews]
  | cons op t ih =>
    rw [applyCrews, List.foldl_cons,
      show (List.foldl (fun acc op => acc.add_crew op.1 op.2) _ t) =
        applyCrews (m.add_crew op.1 op.2) t from rfl, ih]
    rw [add_crew_appearance]
    have h1 : (m.add_crew op.1 op.2).id_to_idx = m.id_to_idx := by
      funext mid
      rw [CooccurrenceMatrix.id_to_idx, CooccurrenceMatrix.id_to_idx, add_crew_model_ids]
    have h2 : ∀ c2 : Crew, (m.add_crew op.1 op.2).resolveIds c2 = m.resolveIds c2 := by
      intro c2
      rw [CooccurrenceMatrix.resolveIds, CooccurrenceMatrix.resolveIds, add_crew_card_db]
    simp only [h1, h2, List.map_cons, List.sum_cons]
    ring

/-! ### Shared concrete sample data for witnesses -/

/-- A minimal concrete profile. -/
def profA : ModelProfile :=
  { id := "a", name := "a", faction := "F", keywords := [], cost := some 5,
    station := "Minion", roles := [], conditions_applied := [],
    conditions_required := [], markers_generated := [], markers_consumed := [],
    summons := [], versatile := false, characteristics := ["Minion"] }

def profB : ModelProfile := { profA with id := "b", name := "b" }

/-- A two-model index. -/
def dbAB : CardDatabase :=
  { models := [("a", profA), ("b", profB)]
    name_to_id := [("a", "a"), ("b", "b")]
    faction_models := [("F", ["a", "b"])]
    keyword_models := [] }

def crewA : Crew :=
  { leader := "q", faction := "F", models := ["a"], total_cost := 50,
    tournament := "", player := "", result := "", date := "" }

def crewB : Crew := { crewA with models := ["b"] }

/-! ### Claim C3 — symmetry of the co-occurrence structure -/

theorem applyCrews_cell_symm (m : CooccurrenceMatrix) (ops : List (Crew × ℚ))
    (hsym : ∀ i j, m.cooccurrence i j = m.cooccurrence j i) (i j : ℕ) :
    (applyCrews m ops).cooccurrence i j = (applyCrews m ops).cooccurrence j i := by
  rw [applyCrews_cooccurrence, applyCrews_cooccurrence, hsym i j]
  congr 1
  exact congrArg List.sum (List.map_congr_left (fun op _ => by rw [pairHits_symm]))

/-- Claim C3: after any sequence of `add_crew` calls with any weights
starting from a fresh matrix, `get_cooccurrence(a, b)` equals
`get_cooccurrence(b, a)` for every pair of model ids. -/
theorem C3_cooccurrence_symmetric (db : CardDatabase) (cfg : Config)
    (ops : List (Crew × ℚ)) (a b : String) :
    (applyCrews (CooccurrenceMatrix.init db cfg) ops).get_cooccurrence a b =
      (applyCrews (CooccurrenceMatrix.init db cfg) ops).get_cooccurrence b a := by
  have hsym := applyCrews_cell_symm (CooccurrenceMatrix.init db cfg) ops
    (by intro i j; rfl)
  rw [CooccurrenceMatrix.get_cooccurrence, CooccurrenceMatrix.get_cooccurrence]
  rcases h1 : (applyCrews (CooccurrenceMatrix.init db cfg) ops).id_to_idx a with _ | i <;>
    rcases h2 : (applyCrews (CooccurrenceMatrix.init db cfg) ops).id_to_idx b with _ | j <;>
    simp only []
  exact hsym i j

/-! ### Claim C2 — order independence of `train` -/

/-- Claim C2: training a fresh recommender on any permutation of a crew
list yields an identical state (same co-occurrence matrix, appearance
vector and crew count — indeed the whole structure is equal). -/
theorem C2_train_order_independent (db : CardDatabase) (cfg : Config)
    (l1 l2 : List Crew) (h : l1.Perm l2) :
    (CrewRecommender.init db cfg).train l1 = (CrewRecommender.init db cfg).train l2 := by
  rw [train_eq, train_eq]
  have hmat : trainMat (CrewRecommender.init db cfg).config
        (CrewRecommender.init db cfg).cooccurrence l1 =
      trainMat (CrewRecommender.init db cfg).config
        (CrewRecommender.init db cfg).cooccurrence l2 := by
    apply CooccurrenceMatrix.ext
    · rw [trainMat_card_db, trainMat_card_db]
    · rw [trainMat_config, trainMat_config]
    · rw [trainMat_model_ids, trainMat_model_ids]
    · funext i j
      rw [trainMat_cooccurrence, trainMat_cooccurrence]
      congr 1
      exact (h.map _).sum_eq
    · funext i
      rw [trainMat_appearance, trainMat_appearance]
      congr 1
      exact (h.map _).sum_eq
    · rw [trainMat_n_crews, trainMat_n_crews, h.length_eq]
  rw [hmat]

/-- Witness for C2 at a concrete permuted pair of crews. -/
theorem C2_train_order_independent_witness :
    ([crewA, crewB].Perm [crewB, crewA]) ∧
      (CrewRecommender.init dbAB defaultConfig).train [crewA, crewB] =
        (CrewRecommender.init dbAB defaultConfig).train [crewB, crewA] :=
  ⟨List.Perm.swap crewB crewA [],
   C2_train_order_independent dbAB defaultConfig [crewA, crewB] [crewB, crewA]
     (List.Perm.swap crewB crewA [])⟩

/-! ### Claim C4 — appearance weights -/

/-- The claim's reading of the appearance invariant: each crew in which
the model appeared contributes its weight exactly once, regardless of
multiplicity.  Stated from the claim's words for comparison with the
code's behaviour. -/
def onceValue (m : CooccurrenceMatrix) (ops : List (Crew × ℚ)) (mid : String) : ℚ :=
  (ops.map (fun op => if mid ∈ m.resolveIds op.1 then op.2 else 0)).sum

/-- A crew whose leader is also listed as a member. -/
def crewAA : Crew :=
  { leader := "a", faction := "F", models := ["a"], total_cost := 50,
    tournament := "", player := "", result := "", date := "" }

/-- Counterexample to C4 as stated: with one `add_crew` of weight 1 for
a crew whose leader `a` is also a member, the appearance count of `a`
is 2, while the once-per-crew sum of the claim is 1. -/
theorem C4_once_per_crew_counterexample :
    (applyCrews (CooccurrenceMatrix.init dbAB defaultConfig) [(crewAA, 1)]).appearanceOf "a"
        = 2 ∧
      onceValue (CooccurrenceMatrix.init dbAB defaultConfig) [(crewAA, 1)] "a" = 1 ∧
      (2 : ℚ) ≠ 1 := by
  have hres : (CooccurrenceMatrix.init dbAB defaultConfig).resolveIds crewAA = ["a", "a"] := by
    decide
  have hidx : (CooccurrenceMatrix.init dbAB defaultConfig).id_to_idx "a" = some 0 := by
    decide
  refine ⟨?_, ?_, by norm_num⟩
  · rw [CooccurrenceMatrix.appearanceOf, applyCrews_id_to_idx, hidx]
    show (applyCrews (CooccurrenceMatrix.init dbAB defaultConfig) [(crewAA, 1)]).appearance_counts 0 = 2
    rw [applyCrews_appearance]
    simp only [List.map_cons, List.map_nil, List.sum_cons, List.sum_nil, hres]
    rw [show (CooccurrenceMatrix.init dbAB defaultConfig).appearance_counts 0 = 0 from rfl]
    rw [show hitCount (CooccurrenceMatrix.init dbAB defaultConfig).id_to_idx ["a", "a"] 0 = 2
      from by decide]
    norm_num
  · rw [onceValue]
    simp only [List.map_cons, List.map_nil, List.sum_cons, List.sum_nil, hres]
    simp

/-- Claim C4 amended: after any sequence of `add_crew` calls, the
appearance count of an indexed model equals the sum over crews of the
crew weight times the model's multiplicity in that crew's resolved id
list (member occurrences and the leader each count separately). -/
theorem C4_appearance_weighted_multiplicity (db : CardDatabase) (cfg : Config)
    (ops : List (Crew × ℚ)) (mid : String)
    (hmem : mid ∈ (CooccurrenceMatrix.init db cfg).model_ids) :
    (applyCrews (CooccurrenceMatrix.init db cfg) ops).appearanceOf mid =
      (ops.map (fun op =>
        op.2 * (((CooccurrenceMatrix.init db cfg).resolveIds op.1).count mid : ℚ))).sum := by
  set m0 := CooccurrenceMatrix.init db cfg with hm0
  have hnn : m0.id_to_idx mid ≠ none := by
    rw [CooccurrenceMatrix.id_to_idx, Ne, idxOf?_eq_none_iff]
    simpa using hmem
  rcases h : m0.id_to_idx mid with _ | i
  · exact absurd h hnn
  rw [CooccurrenceMatrix.appearanceOf, applyCrews_id_to_idx, h]
  show (applyCrews m0 ops).appearance_counts i =
    (ops.map (fun op => op.2 * ((m0.resolveIds op.1).count mid : ℚ))).sum
  rw [applyCrews_appearance]
  rw [show m0.appearance_counts i = 0 from rfl]
  rw [zero_add]
  congr 1
  apply List.map_congr_left
  intro op _
  congr 1
  have hfun : m0.id_to_idx = idxOf? m0.model_ids := rfl
  rw [hfun, hitCount_eq_count m0.model_ids _ mid i (hfun ▸ h)]

/-- Witness for the amended C4 at a concrete input. -/
theorem C4_appearance_weighted_multiplicity_witness :
    "a" ∈ (CooccurrenceMatrix.init dbAB defaultConfig).model_ids ∧
      (applyCrews (CooccurrenceMatrix.init dbAB defaultConfig) [(crewAA, 1)]).appearanceOf "a"
        = ([((1 : ℚ) * ((((CooccurrenceMatrix.init dbAB defaultConfig).resolveIds crewAA).count
            "a" : ℕ) : ℚ))]).sum :=
  ⟨by decide,
   C4_appearance_weighted_multiplicity dbAB defaultConfig [(crewAA, 1)] "a" (by decide)⟩

/-! ### Claim C7 — PMI neutrality under degenerate statistics -/

/-- Claim C7: `get_pmi` returns exactly `0.0` whenever no crews have
been observed, either model has a zero appearance count, or either id is
absent from the index. -/
theorem C7_pmi_neutral (m : CooccurrenceMatrix) (a b : String)
    (h : m.n_crews = 0 ∨ m.appearanceOf a = 0 ∨ m.appearanceOf b = 0 ∨
      m.id_to_idx a = none ∨ m.id_to_idx b = none) :
    m.get_pmi a b = 0 := by
  rw [CooccurrenceMatrix.get_pmi]
  rcases h1 : m.id_to_idx a with _ | i
  · rfl
  rcases h2 : m.id_to_idx b with _ | j
  · rfl
  simp only []
  rw [if_pos]
  rcases h with hn | ha | hb | hA | hB
  · exact Or.inr (Or.inr (Or.inr hn))
  · rw [CooccurrenceMatrix.appearanceOf, h1] at ha
    exact Or.inr (Or.inl ha)
  · rw [CooccurrenceMatrix.appearanceOf, h2] at hb
    exact Or.inr (Or.inr (Or.inl hb))
  · exact absurd hA (by rw [h1]; exact fun hh => Option.noConfusion hh)
  · exact absurd hB (by rw [h2]; exact fun hh => Option.noConfusion hh)

/-- Witness for C7: a fresh matrix has observed no crews, so PMI is 0. -/
theorem C7_pmi_neutral_witness :
    (CooccurrenceMatrix.init dbAB defaultConfig).n_crews = 0 ∧
      (CooccurrenceMatrix.init dbAB defaultConfig).get_pmi "a" "b" = 0 :=
  ⟨rfl, C7_pmi_neutral (CooccurrenceMatrix.init dbAB defaultConfig) "a" "b" (Or.inl rfl)⟩

/-! ### Claim C1 — the smoothed PMI formula -/

/-- The spec's PMI formula: `log((P(a,b)+eps) / (P(a)*P(b)+eps))` with
`P(a,b) = cooccurrence(a,b)/n_crews`, `P(x) = appearance(x)/n_crews`
and `eps` the configured smoothing factor.  Stated from the spec's
words for comparison with `get_pmi`. -/
noncomputable def pmi_spec (m : CooccurrenceMatrix) (a b : String) : ℝ :=
  let eps := m.config.learning.smoothing_factor
  let p_ab : ℚ := m.get_cooccurrence a b / (m.n_crews : ℚ)
  let p_a : ℚ := m.appearanceOf a / (m.n_crews : ℚ)
  let p_b : ℚ := m.appearanceOf b / (m.n_crews : ℚ)
  Real.log (((p_ab + eps) / (p_a * p_b + eps) : ℚ) : ℝ)

/-- The concrete matrix of the C1 counterexample: two single-model
crews, so both models have appearance count 1 over 2 crews but have
never co-occurred. -/
def c1Matrix : CooccurrenceMatrix :=
  applyCrews (CooccurrenceMatrix.init dbAB defaultConfig) [(crewA, 1), (crewB, 1)]

theorem c1Matrix_idx_a : c1Matrix.id_to_idx "a" = some 0 := by
  rw [c1Matrix, applyCrews_id_to_idx]; decide

theorem c1Matrix_idx_b : c1Matrix.id_to_idx "b" = some 1 := by
  rw [c1Matrix, applyCrews_id_to_idx]; decide

theorem c1Matrix_cooc : c1Matrix.cooccurrence 0 1 = 0 := by
  rw [c1Matrix, applyCrews_cooccurrence]
  rw [show (CooccurrenceMatrix.init dbAB defaultConfig).cooccurrence 0 1 = 0 from rfl]
  have h1 : (CooccurrenceMatrix.init dbAB defaultConfig).resolveIds crewA = ["a"] := by decide
  have h2 : (CooccurrenceMatrix.init dbAB defaultConfig).resolveIds crewB = ["b"] := by decide
  simp only [List.map_cons, List.map_nil, List.sum_cons, List.sum_nil, h1, h2]
  rw [show pairHits (CooccurrenceMatrix.init dbAB defaultConfig).id_to_idx 0 1 ["a"] = 0
    from by decide]
  rw [show pairHits (CooccurrenceMatrix.init dbAB defaultConfig).id_to_idx 0 1 ["b"] = 0
    from by decide]
  norm_num

theorem c1Matrix_app_a : c1Matrix.appearance_counts 0 = 1 := by
  rw [c1Matrix, applyCrews_appearance]
  rw [show (CooccurrenceMatrix.init dbAB defaultConfig).appearance_counts 0 = 0 from rfl]
  have h1 : (CooccurrenceMatrix.init dbAB defaultConfig).resolveIds crewA = ["a"] := by decide
  have h2 : (CooccurrenceMatrix.init dbAB defaultConfig).resolveIds crewB = ["b"] := by decide
  simp only [List.map_cons, List.map_nil, List.sum_cons, List.sum_nil, h1, h2]
  rw [show hitCount (CooccurrenceMatrix.init dbAB defaultConfig).id_to_idx ["a"] 0 = 1
    from by decide]
  rw [show hitCount (CooccurrenceMatrix.init dbAB defaultConfig).id_to_idx ["b"] 0 = 0
    from by decide]
  norm_num

theorem c1Matrix_app_b : c1Matrix.appearance_counts 1 = 1 := by
  rw [c1Matrix, applyCrews_appearance]
  rw [show (CooccurrenceMatrix.init dbAB defaultConfig).appearance_counts 1 = 0 from rfl]
  have h1 : (CooccurrenceMatrix.init dbAB defaultConfig).resolveIds crewA = ["a"] := by decide
  have h2 : (CooccurrenceMatrix.init dbAB defaultConfig).resolveIds crewB = ["b"] := by decide
  simp only [List.map_cons, List.map_nil, List.sum_cons, List.sum_nil, h1, h2]
  rw [show hitCount (CooccurrenceMatrix.init dbAB defaultConfig).id_to_idx ["a"] 1 = 0
    from by decide]
  rw [show hitCount (CooccurrenceMatrix.init dbAB defaultConfig).id_to_idx ["b"] 1 = 1
    from by decide]
  norm_num

theorem c1Matrix_n_crews : c1Matrix.n_crews = 2 := rfl

/-- Counterexample to C1 as stated: both models are indexed, crews have
been observed and both appearance counts are 1, yet `get_pmi` returns a
hard `0.0` for this never-co-occurring pair, while the claim's smoothed
formula evaluates to `log(2/7) ≠ 0`. -/
theorem C1_smoothed_for_unseen_counterexample :
    c1Matrix.get_pmi "a" "b" = 0 ∧ pmi_spec c1Matrix "a" "b" ≠ 0 := by
  constructor
  · rw [CooccurrenceMatrix.get_pmi]
    rw [c1Matrix_idx_a, c1Matrix_idx_b]
    simp only []
    rw [if_pos (Or.inl c1Matrix_cooc)]
  · rw [pmi_spec]
    rw [CooccurrenceMatrix.get_cooccurrence, c1Matrix_idx_a, c1Matrix_idx_b]
    simp only []
    rw [CooccurrenceMatrix.appearanceOf, c1Matrix_idx_a]
    rw [CooccurrenceMatrix.appearanceOf, c1Matrix_idx_b]
    simp only [c1Matrix_cooc, c1Matrix_app_a, c1Matrix_app_b, c1Matrix_n_crews]
    rw [show c1Matrix.config.learning.smoothing_factor = 1/10 from rfl]
    rw [Ne, Real.log_eq_zero]
    push_cast
    norm_num

/-- Claim C1 amended: for indexed models with observed crews and nonzero
appearance counts, `get_pmi` equals the smoothed formula *provided the
pair's co-occurrence is nonzero*; a never-seen pair instead returns the
hard neutral value `0.0` (the `cooc == 0` guard fires before the
smoothed formula is evaluated). -/
theorem C1_pmi_formula (m : CooccurrenceMatrix) (a b : String) (i j : ℕ)
    (ha : m.id_to_idx a = some i) (hb : m.id_to_idx b = some j)
    (hn : m.n_crews ≠ 0)
    (hca : m.appearance_counts i ≠ 0) (hcb : m.appearance_counts j ≠ 0)
    (hco : m.cooccurrence i j ≠ 0) :
    m.get_pmi a b = pmi_spec m a b := by
  rw [CooccurrenceMatrix.get_pmi, ha, hb]
  simp only []
  rw [if_neg (by push_neg; exact ⟨hco, hca, hcb, hn⟩)]
  rw [pmi_spec]
  rw [CooccurrenceMatrix.get_cooccurrence, ha, hb]
  rw [CooccurrenceMatrix.appearanceOf, ha, CooccurrenceMatrix.appearanceOf, hb]

/-- The concrete matrix of the C1 witness: one crew containing both
models, so the pair has been seen together. -/
def c1wMatrix : CooccurrenceMatrix :=
  applyCrews (CooccurrenceMatrix.init dbAB defaultConfig)
    [({ crewA with models := ["a", "b"] }, 1)]

theorem c1wMatrix_cooc : c1wMatrix.cooccurrence 0 1 = 1 := by
  rw [c1wMatrix, applyCrews_cooccurrence]
  rw [show (CooccurrenceMatrix.init dbAB defaultConfig).cooccurrence 0 1 = 0 from rfl]
  have h1 : (CooccurrenceMatrix.init dbAB defaultConfig).resolveIds
      { crewA with models := ["a", "b"] } = ["a", "b"] := by decide
  simp only [List.map_cons, List.map_nil, List.sum_cons, List.sum_nil, h1]
  rw [show pairHits (CooccurrenceMatrix.init dbAB defaultConfig).id_to_idx 0 1 ["a", "b"] = 1
    from by decide]
  norm_num

theorem c1wMatrix_app_a : c1wMatrix.appearance_counts 0 = 1 := by
  rw [c1wMatrix, applyCrews_appearance]
  rw [show (CooccurrenceMatrix.init dbAB defaultConfig).appearance_counts 0 = 0 from rfl]
  have h1 : (CooccurrenceMatrix.init dbAB defaultConfig).resolveIds
      { crewA with models := ["a", "b"] } = ["a", "b"] := by decide
  simp only [List.map_cons, List.map_nil, List.sum_cons, List.sum_nil, h1]
  rw [show hitCount (CooccurrenceMatrix.init dbAB defaultConfig).id_to_idx ["a", "b"] 0 = 1
    from by decide]
  norm_num

theorem c1wMatrix_app_b : c1wMatrix.appearance_counts 1 = 1 := by
  rw [c1wMatrix, applyCrews_appearance]
  rw [show (CooccurrenceMatrix.init dbAB defaultConfig).appearance_counts 1 = 0 from rfl]
  have h1 : (CooccurrenceMatrix.init dbAB defaultConfig).resolveIds
      { crewA with models := ["a", "b"] } = ["a", "b"] := by decide
  simp only [List.map_cons, List.map_nil, List.sum_cons, List.sum_nil, h1]
  rw [show hitCount (CooccurrenceMatrix.init dbAB defaultConfig).id_to_idx ["a", "b"] 1 = 1
    from by decide]
  norm_num

/-- Witness for the amended C1 at a concrete seen pair. -/
theorem C1_pmi_formula_witness :
    c1wMatrix.get_pmi "a" "b" = pmi_spec c1wMatrix "a" "b" :=
  C1_pmi_formula c1wMatrix "a" "b" 0 1
    (by rw [c1wMatrix, applyCrews_id_to_idx]; decide)
    (by rw [c1wMatrix, applyCrews_id_to_idx]; decide)
    (by rw [show c1wMatrix.n_crews = 1 from rfl]; omega)
    (by rw [c1wMatrix_app_a]; norm_num)
    (by rw [c1wMatrix_app_b]; norm_num)
    (by rw [c1wMatrix_cooc]; norm_num)

/-! ### Claim C8 — win-weighted training -/

/-- Claim C8: training on exactly two crews that each contain models `A`
and `B` exactly once (resolved against the index), one marked as a win
and one with no result, makes `get_cooccurrence(A, B)` the exact sum of
the two crew weights, `win_rate_factor + 1.0`, which is not `2.0` since
the factor exceeds `1.0`. -/
theorem C8_win_weighted_cooccurrence (db : CardDatabase) (cfg : Config) (c1 c2 : Crew)
    (A B : String) (hAB : A ≠ B)
    (hA : A ∈ (CooccurrenceMatrix.init db cfg).model_ids)
    (hB : B ∈ (CooccurrenceMatrix.init db cfg).model_ids)
    (h1A : ((CooccurrenceMatrix.init db cfg).resolveIds c1).count A = 1)
    (h1B : ((CooccurrenceMatrix.init db cfg).resolveIds c1).count B = 1)
    (h2A : ((CooccurrenceMatrix.init db cfg).resolveIds c2).count A = 1)
    (h2B : ((CooccurrenceMatrix.init db cfg).resolveIds c2).count B = 1)
    (hwin : strIn "win" (strLower c1.result) = true ∨ c1.result = "W")
    (hres2 : c2.result = "")
    (hfac : 1 < cfg.learning.win_rate_factor) :
    (((CrewRecommender.init db cfg).train [c1, c2]).cooccurrence).get_cooccurrence A B =
        cfg.learning.win_rate_factor + 1 ∧
      cfg.learning.win_rate_factor + 1 ≠ 2 := by
  set m0 := CooccurrenceMatrix.init db cfg with hm0
  have hw1 : trainWeight cfg c1 = cfg.learning.win_rate_factor := by
    rw [trainWeight]
    by_cases hres : c1.result = ""
    · exfalso
      rcases hwin with hv | hv
      · rw [hres] at hv
        exact absurd hv (by decide)
      · rw [hres] at hv
        exact absurd hv (by decide)
    · rw [if_pos hres, if_pos]
      rcases hwin with hv | hv
      · simp [hv]
      · simp [hv]
  have hw2 : trainWeight cfg c2 = 1 := by
    rw [trainWeight, if_neg]
    rw [hres2]
    exact fun hh => hh rfl
  -- the two indices
  have hAi : m0.id_to_idx A ≠ none := by
    rw [CooccurrenceMatrix.id_to_idx, Ne, idxOf?_eq_none_iff]
    simpa using hA
  have hBi : m0.id_to_idx B ≠ none := by
    rw [CooccurrenceMatrix.id_to_idx, Ne, idxOf?_eq_none_iff]
    simpa using hB
  rcases hi : m0.id_to_idx A with _ | i
  · exact absurd hi hAi
  rcases hj : m0.id_to_idx B with _ | j
  · exact absurd hj hBi
  have hij : i ≠ j := by
    intro hh
    exact hAB (idxOf?_inj m0.model_ids A B i hi (by rw [hh]; exact hj))
  constructor
  · rw [train_eq]
    show (trainMat cfg m0 [c1, c2]).get_cooccurrence A B = _
    rw [CooccurrenceMatrix.get_cooccurrence]
    have hi2 : (trainMat cfg m0 [c1, c2]).id_to_idx A = some i := by
      rw [CooccurrenceMatrix.id_to_idx, trainMat_model_ids]
      exact hi
    have hj2 : (trainMat cfg m0 [c1, c2]).id_to_idx B = some j := by
      rw [CooccurrenceMatrix.id_to_idx, trainMat_model_ids]
      exact hj
    rw [hi2, hj2]
    show (trainMat cfg m0 [c1, c2]).cooccurrence i j = _
    rw [trainMat_cooccurrence]
    rw [show m0.cooccurrence i j = 0 from rfl]
    simp only [List.map_cons, List.map_nil, List.sum_cons, List.sum_nil]
    have hfun : m0.id_to_idx = idxOf? m0.model_ids := rfl
    have hph1 : pairHits m0.id_to_idx i j (m0.resolveIds c1) = 1 := by
      rw [pairHits_eq_mul _ i j hij, hfun,
        hitCount_eq_count m0.model_ids _ A i (hfun ▸ hi),
        hitCount_eq_count m0.model_ids _ B j (hfun ▸ hj), h1A, h1B]
    have hph2 : pairHits m0.id_to_idx i j (m0.resolveIds c2) = 1 := by
      rw [pairHits_eq_mul _ i j hij, hfun,
        hitCount_eq_count m0.model_ids _ A i (hfun ▸ hi),
        hitCount_eq_count m0.model_ids _ B j (hfun ▸ hj), h2A, h2B]
    rw [hph1, hph2, hw1, hw2]
    push_cast
    ring
  · intro hh
    have : cfg.learning.win_rate_factor = 1 := by linarith
    linarith

/-- The win-marked and unmarked crews of the C8 witness. -/
def crewWin : Crew :=
  { leader := "q", faction := "F", models := ["a", "b"], total_cost := 50,
    tournament := "", player := "", result := "win", date := "" }

def crewNeutral : Crew := { crewWin with result := "" }

/-- Witness for C8 at a concrete pair of crews over the two-model index
(with the default `win_rate_factor` of 1.5, the result is 2.5). -/
theorem C8_win_weighted_cooccurrence_witness :
    (((CrewRecommender.init dbAB defaultConfig).train
        [crewWin, crewNeutral]).cooccurrence).get_cooccurrence "a" "b" =
        defaultConfig.learning.win_rate_factor + 1 ∧
      defaultConfig.learning.win_rate_factor + 1 ≠ 2 :=
  C8_win_weighted_cooccurrence dbAB defaultConfig crewWin crewNeutral "a" "b"
    (by decide) (by decide) (by decide)
    (by decide) (by decide) (by decide) (by decide)
    (Or.inl (by decide)) rfl (by norm_num [defaultConfig])

/-! ### Claim C9 — no self-recommendation -/

theorem mem_dedupAux (l seen : List String) (x : String) :
    x ∈ dedupAux l seen ↔ x ∈ l ∧ x ∉ seen := by
  induction l generalizing seen with
  | nil => simp [dedupAux]
  | cons y t ih =>
    by_cases hy : y ∈ seen
    · rw [dedupAux, if_pos hy, ih]
      constructor
      · exact fun ⟨h1, h2⟩ => ⟨List.mem_cons_of_mem y h1, h2⟩
      · rintro ⟨h1, h2⟩
        rcases List.mem_cons.mp h1 with rfl | h1
        · exact absurd hy h2
        · exact ⟨h1, h2⟩
    · rw [dedupAux, if_neg hy]
      constructor
      · intro hmem
        rcases List.mem_cons.mp hmem with rfl | hmem
        · exact ⟨List.mem_cons_self x t, hy⟩
        · rcases (ih (y :: seen)).mp hmem with ⟨h1, h2⟩
          exact ⟨List.mem_cons_of_mem y h1,
            fun hs => h2 (List.mem_cons_of_mem y hs)⟩
      · rintro ⟨h1, h2⟩
        rcases List.mem_cons.mp h1 with rfl | h1
        · exact List.mem_cons_self x _
        · by_cases hxy : x = y
          · subst hxy
            exact List.mem_cons_self x _
          · exact List.mem_cons_of_mem y ((ih (y :: seen)).mpr
              ⟨h1, fun hs => (List.mem_cons.mp hs).elim hxy h2⟩)

theorem mem_dedupFirst (l : List String) (x : String) :
    x ∈ dedupFirst l ↔ x ∈ l := by
  rw [dedupFirst, mem_dedupAux]
  simp

/-- Claim C9: no recommendation returned by `recommend` carries the id
of any profile resolved from the current model names. -/
theorem C9_no_self_recommendation (r : CrewRecommender) (cm : List String)
    (faction leader : Option String) (n : ℕ) (rec : Recommendation)
    (hrec : rec ∈ r.recommend cm faction leader n)
    (p : ModelProfile) (hp : p ∈ r.currentProfiles cm) :
    rec.model_id ≠ p.id := by
  have hmem : rec ∈ (r.scoredList cm faction leader).mergeSort scoreGe :=
    List.take_subset n _ hrec
  rw [List.mem_mergeSort] at hmem
  rw [CrewRecommender.scoredList, List.mem_map] at hmem
  rcases hmem with ⟨cand, hcand, hrec2⟩
  rw [CrewRecommender.filteredCandidates, List.mem_filter] at hcand
  rcases hcand with ⟨_, hnotin⟩
  have hid : rec.model_id = cand.id := by rw [← hrec2]; rfl
  rw [hid]
  intro hcontra
  apply (by simpa using hnotin : cand.id ∉ r.currentIds cm)
  rw [CrewRecommender.currentIds, mem_dedupFirst, hcontra]
  exact List.mem_map_of_mem ModelProfile.id hp

/-- A second concrete index used by the recommendation-level witnesses:
a Master `m` and a Minion `c` sharing faction `F` and keyword `K`. -/
def profM : ModelProfile :=
  { id := "m", name := "m", faction := "F", keywords := ["K"], cost := none,
    station := "Master", roles := [], conditions_applied := [],
    conditions_required := [], markers_generated := [], markers_consumed := [],
    summons := [], versatile := false, characteristics := ["Master"] }

def profC : ModelProfile :=
  { id := "c", name := "c", faction := "F", keywords := ["K"], cost := some 6,
    station := "Minion", roles := [], conditions_applied := [],
    conditions_required := [], markers_generated := [], markers_consumed := [],
    summons := [], versatile := false, characteristics := ["Minion"] }

def dbMC : CardDatabase :=
  { models := [("m", profM), ("c", profC)]
    name_to_id := [("m", "m"), ("c", "c")]
    faction_models := [("F", ["m", "c"])]
    keyword_models := [("K", ["m", "c"])] }

theorem dbMC_filtered :
    (CrewRecommender.init dbMC defaultConfig).filteredCandidates ["m"] none none = [profC] := by
  decide

/-- Witness for C9: with the crew `["m"]` over the two-model index, the
single returned candidate is not the master already in the crew. -/
theorem C9_no_self_recommendation_witness :
    ((CrewRecommender.init dbMC defaultConfig).scoreCandidate ["m"] none profC).model_id ≠
      profM.id :=
  C9_no_self_recommendation (CrewRecommender.init dbMC defaultConfig) ["m"] none none 10
    ((CrewRecommender.init dbMC defaultConfig).scoreCandidate ["m"] none profC)
    (by
      rw [CrewRecommender.recommend]
      rw [show (CrewRecommender.init dbMC defaultConfig).scoredList ["m"] none none =
          [(CrewRecommender.init dbMC defaultConfig).scoreCandidate ["m"] none profC] from by
        rw [CrewRecommender.scoredList, dbMC_filtered]
        rfl]
      simp)
    profM (by decide)

/-! ### Claim C6 — ordering of recommendations -/

theorem scoreCandidate_score (r : CrewRecommender) (cm : List String)
    (leader : Option String) (cand : ModelProfile) :
    (r.scoreCandidate cm leader cand).score =
      (r.collaborative_weight : ℝ) * r.collaborative_score cand (r.currentIds cm) +
        (r.rule_weight : ℝ) *
          (((r.rule_scorer.score_addition cand (r.currentProfiles cm)
            (r.leaderProfile cm leader)).1 : ℚ) : ℝ) := rfl

theorem scoreCandidate_model (r : CrewRecommender) (cm : List String)
    (leader : Option String) (cand : ModelProfile) :
    (r.scoreCandidate cm leader cand).model = cand.name := rfl

theorem scoreGe_trans (a b c : Recommendation) :
    scoreGe a b → scoreGe b c → scoreGe a c := by
  simp only [scoreGe, decide_eq_true_eq]
  exact fun h1 h2 => le_trans h2 h1

theorem scoreGe_total (a b : Recommendation) : scoreGe a b || scoreGe b a := by
  simp only [scoreGe, Bool.or_eq_true, decide_eq_true_eq]
  exact le_total b.score a.score

/-- Claim C6 amended: the returned list is the `n`-prefix of a stable
descending sort of the scored candidate list — it is sorted by
descending final score, it permutes the scored list, and candidates
with equal scores keep their candidate-pool order (Python's sort is
stable); ties are *not* re-ordered by name. -/
theorem C6_sort_descending_stable (r : CrewRecommender) (cm : List String)
    (faction leader : Option String) (n : ℕ) :
    (r.recommend cm faction leader n).Pairwise (fun a b => b.score ≤ a.score) ∧
      ((r.scoredList cm faction leader).mergeSort scoreGe).Perm
        (r.scoredList cm faction leader) ∧
      r.recommend cm faction leader n =
        ((r.scoredList cm faction leader).mergeSort scoreGe).take n ∧
      (r.recommend cm faction leader n).length =
        min n (r.scoredList cm faction leader).length ∧
      (∀ a b, List.Sublist [a, b] (r.scoredList cm faction leader) → a.score = b.score →
        List.Sublist [a, b] ((r.scoredList cm faction leader).mergeSort scoreGe)) := by
  refine ⟨?_, ?_, rfl, ?_, ?_⟩
  · have hs := @List.sorted_mergeSort Recommendation scoreGe scoreGe_trans scoreGe_total
      (r.scoredList cm faction leader)
    have htake : (r.recommend cm faction leader n).Pairwise (fun a b => scoreGe a b) :=
      hs.sublist (List.take_sublist n _)
    exact htake.imp (fun h => by simpa [scoreGe] using h)
  · exact List.mergeSort_perm _ _
  · rw [CrewRecommender.recommend, List.length_take, List.length_mergeSort]
  · intro a b hsub heq
    apply List.sublist_mergeSort scoreGe_trans scoreGe_total _ hsub
    refine List.pairwise_cons.mpr ⟨?_, List.pairwise_singleton _ _⟩
    intro x hx
    rcases List.mem_singleton.mp hx with rfl
    simp [scoreGe, heq]

/-- Witness for the amended C6 at a concrete query. -/
theorem C6_sort_descending_stable_witness :
    ((CrewRecommender.init dbMC defaultConfig).recommend ["m"] none none
        10).Pairwise (fun a b => b.score ≤ a.score) ∧
      (((CrewRecommender.init dbMC defaultConfig).scoredList ["m"] none none).mergeSort
          scoreGe).Perm
        ((CrewRecommender.init dbMC defaultConfig).scoredList ["m"] none none) ∧
      (CrewRecommender.init dbMC defaultConfig).recommend ["m"] none none 10 =
        (((CrewRecommender.init dbMC defaultConfig).scoredList ["m"] none
          none).mergeSort scoreGe).take 10 ∧
      ((CrewRecommender.init dbMC defaultConfig).recommend ["m"] none none 10).length =
        min 10 ((CrewRecommender.init dbMC defaultConfig).scoredList ["m"] none
          none).length ∧
      (∀ a b, List.Sublist [a, b] ((CrewRecommender.init dbMC defaultConfig).scoredList
          ["m"] none none) → a.score = b.score →
        List.Sublist [a, b] (((CrewRecommender.init dbMC defaultConfig).scoredList ["m"] none
          none).mergeSort scoreGe)) :=
  C6_sort_descending_stable (CrewRecommender.init dbMC defaultConfig) ["m"] none none 10

/-- Profiles and index for the tie-ordering counterexample: the
database lists `zeb` before `ann`, both in faction `F`. -/
def profZeb : ModelProfile :=
  { id := "b1", name := "zeb", faction := "F", keywords := [], cost := some 5,
    station := "Minion", roles := [], conditions_applied := [],
    conditions_required := [], markers_generated := [], markers_consumed := [],
    summons := [], versatile := false, characteristics := ["Minion"] }

def profAnn : ModelProfile := { profZeb with id := "a1", name := "ann" }

def dbNames : CardDatabase :=
  { models := [("b1", profZeb), ("a1", profAnn)]
    name_to_id := [("zeb", "b1"), ("ann", "a1")]
    faction_models := [("F", ["b1", "a1"])]
    keyword_models := [] }

theorem dbNames_filtered :
    (CrewRecommender.init dbNames defaultConfig).filteredCandidates [] (some "F") none =
      [profZeb, profAnn] := by
  decide

theorem dbNames_score (cand : ModelProfile) :
    ((CrewRecommender.init dbNames defaultConfig).scoreCandidate [] none cand).score = 1 := by
  rw [scoreCandidate_score]
  rw [show (CrewRecommender.init dbNames defaultConfig).collaborative_score cand
      ((CrewRecommender.init dbNames defaultConfig).currentIds []) = 1 from rfl]
  rw [show ((CrewRecommender.init dbNames defaultConfig).rule_scorer.score_addition cand
      ((CrewRecommender.init dbNames defaultConfig).currentProfiles [])
      ((CrewRecommender.init dbNames defaultConfig).leaderProfile [] none)).1 = 1 from rfl]
  rw [show (CrewRecommender.init dbNames defaultConfig).collaborative_weight = 7/10 from rfl]
  rw [show (CrewRecommender.init dbNames defaultConfig).rule_weight = 3/10 from rfl]
  push_cast
  norm_num

theorem dbNames_scoredList :
    (CrewRecommender.init dbNames defaultConfig).scoredList [] (some "F") none =
      [(CrewRecommender.init dbNames defaultConfig).scoreCandidate [] none profZeb,
       (CrewRecommender.init dbNames defaultConfig).scoreCandidate [] none profAnn] := by
  rw [CrewRecommender.scoredList, dbNames_filtered]
  rfl

/-- Counterexample to C6 as stated: on an empty current crew every
candidate scores exactly 1, yet the returned order is the candidate-pool
order `["zeb", "ann"]` — equal scores in strictly descending name
order, so ties are not broken by ascending model name. -/
theorem C6_tie_name_order_counterexample :
    ((CrewRecommender.init dbNames defaultConfig).recommend [] (some "F") none 10).map
        Recommendation.model = ["zeb", "ann"] ∧
      ((CrewRecommender.init dbNames defaultConfig).recommend [] (some "F") none 10).map
        Recommendation.score = [1, 1] ∧
      ("ann" < "zeb") := by
  have hms : ((CrewRecommender.init dbNames defaultConfig).scoredList [] (some "F")
        none).mergeSort scoreGe =
      (CrewRecommender.init dbNames defaultConfig).scoredList [] (some "F") none := by
    apply List.mergeSort_of_sorted
    rw [dbNames_scoredList]
    refine List.pairwise_cons.mpr ⟨?_, List.pairwise_singleton _ _⟩
    intro x hx
    rcases List.mem_singleton.mp hx with rfl
    rw [scoreGe]
    apply decide_eq_true
    rw [dbNames_score, dbNames_score]
  rw [CrewRecommender.recommend, hms, dbNames_scoredList]
  refine ⟨rfl, ?_, by rw [String.lt_iff_toList_lt]; decide⟩
  simp only [List.take, List.map_cons, List.map_nil, dbNames_score]

/-! ### Claim C5 — round-trip fidelity of persistence -/

/-- Claim C5 amended: `save` on a trained recommender followed by `load`
into a fresh recommender built over the same database *and the same
configuration* reproduces the trained state exactly, hence identical
`recommend` output for every query.  (The configuration must match
because `load` replaces the recommender-level config but not the config
captured by the co-occurrence matrix and the rule scorer at
construction; the id ordering is the fresh instance's own, which
coincides over the same dataset.) -/
theorem C5_round_trip (db : CardDatabase) (cfg : Config) (crews : List Crew)
    (cm : List String) (faction leader : Option String) (n : ℕ) :
    ((CrewRecommender.init db cfg).load
        (((CrewRecommender.init db cfg).train crews).save)).recommend cm faction leader n =
      ((CrewRecommender.init db cfg).train crews).recommend cm faction leader n := by
  have hstate : (CrewRecommender.init db cfg).load
      (((CrewRecommender.init db cfg).train crews).save) =
      (CrewRecommender.init db cfg).train crews := by
    rw [train_eq]
    apply CrewRecommender.ext
    · rfl
    · rfl
    · apply CooccurrenceMatrix.ext
      · show (CrewRecommender.init db cfg).cooccurrence.card_db =
          (trainMat (CrewRecommender.init db cfg).config
            (CrewRecommender.init db cfg).cooccurrence crews).card_db
        exact (trainMat_card_db _ _ _).symm
      · show (CrewRecommender.init db cfg).cooccurrence.config =
          (trainMat (CrewRecommender.init db cfg).config
            (CrewRecommender.init db cfg).cooccurrence crews).config
        exact (trainMat_config _ _ _).symm
      · show (CrewRecommender.init db cfg).cooccurrence.model_ids =
          (trainMat (CrewRecommender.init db cfg).config
            (CrewRecommender.init db cfg).cooccurrence crews).model_ids
        exact (trainMat_model_ids _ _ _).symm
      · rfl
      · rfl
      · rfl
    · rfl
    · rfl
    · rfl
  rw [hstate]

/-- Witness input reused for the round-trip counterexample below: a
crew none of whose names resolve. -/
def crewNoise : Crew :=
  { leader := "qq", faction := "F", models := ["zz"], total_cost := 50,
    tournament := "", player := "", result := "", date := "" }

/-- A configuration differing from the default only in the
`same_keyword` synergy weight. -/
def cfgB : Config :=
  { defaultConfig with synergy_weights :=
      { defaultConfig.synergy_weights with same_keyword := 3 } }

def c5trained : CrewRecommender :=
  (CrewRecommender.init dbMC defaultConfig).train [crewNoise]

def c5loaded : CrewRecommender := (CrewRecommender.init dbMC cfgB).load c5trained.save

theorem scoreCandidate_rule_score (r : CrewRecommender) (cm : List String)
    (leader : Option String) (cand : ModelProfile) :
    (r.scoreCandidate cm leader cand).rule_score =
      (r.rule_scorer.score_addition cand (r.currentProfiles cm)
        (r.leaderProfile cm leader)).1 := rfl

/-- The role-balance loop contributes nothing when the candidate has no
roles. -/
theorem roleFold_no_roles (targets : List (String × RoleTarget)) (cand : ModelProfile)
    (crew : List ModelProfile) (acc : ℚ × List String) (hroles : cand.roles = []) :
    targets.foldl (roleBalanceStep cand crew) acc = acc := by
  induction targets generalizing acc with
  | nil => rfl
  | cons rt t ih =>
    rw [List.foldl_cons, show roleBalanceStep cand crew acc rt = acc from by
      rw [roleBalanceStep, if_neg]
      rw [hroles]
      simp]
    exact ih acc

theorem score_pair_MC (cfg : Config) :
    (RuleBasedScorer.score_pair { card_db := dbMC, config := cfg } profC profM ["K"]).1 =
      1 * cfg.synergy_weights.same_keyword * cfg.synergy_weights.master_keyword_match *
        cfg.synergy_weights.role_diversity_bonus := by
  rw [RuleBasedScorer.score_pair]
  split_ifs <;> simp_all [interList, genericKeywords, profC, profM] <;> try ring

theorem score_addition_MC (cfg : Config) :
    (RuleBasedScorer.score_addition { card_db := dbMC, config := cfg } profC [profM]
        (some profM)).1 =
      1 * cfg.synergy_weights.same_keyword * cfg.synergy_weights.master_keyword_match *
        cfg.synergy_weights.role_diversity_bonus := by
  rw [RuleBasedScorer.score_addition, if_neg (by simp)]
  simp only [List.map_cons, List.map_nil, List.sum_cons, List.sum_nil, List.length_cons,
    List.length_nil]
  rw [roleFold_no_roles _ _ _ _ rfl]
  rw [show (profM : ModelProfile).keywords = ["K"] from rfl]
  rw [score_pair_MC]
  push_cast
  ring

theorem c5trained_filtered :
    c5trained.filteredCandidates ["m"] none none = [profC] := by decide

theorem c5loaded_filtered :
    c5loaded.filteredCandidates ["m"] none none = [profC] := by decide

theorem c5trained_scored :
    c5trained.scoredList ["m"] none none = [c5trained.scoreCandidate ["m"] none profC] := by
  rw [CrewRecommender.scoredList, c5trained_filtered]
  rfl

theorem c5loaded_scored :
    c5loaded.scoredList ["m"] none none = [c5loaded.scoreCandidate ["m"] none profC] := by
  rw [CrewRecommender.scoredList, c5loaded_filtered]
  rfl

theorem c5trained_rule_score :
    (c5trained.scoreCandidate ["m"] none profC).rule_score = 6 := by
  rw [scoreCandidate_rule_score]
  rw [show c5trained.currentProfiles ["m"] = [profM] from by decide]
  rw [show c5trained.leaderProfile ["m"] none = some profM from by decide]
  rw [show c5trained.rule_scorer = { card_db := dbMC, config := defaultConfig } from by
    rw [c5trained, train_eq]
    rfl]
  rw [score_addition_MC]
  norm_num [defaultConfig]

theorem c5loaded_rule_score :
    (c5loaded.scoreCandidate ["m"] none profC).rule_score = 9 := by
  rw [scoreCandidate_rule_score]
  rw [show c5loaded.currentProfiles ["m"] = [profM] from by decide]
  rw [show c5loaded.leaderProfile ["m"] none = some profM from by decide]
  rw [show c5loaded.rule_scorer = { card_db := dbMC, config := cfgB } from rfl]
  rw [score_addition_MC]
  norm_num [cfgB, defaultConfig]

theorem c5trained_recommend :
    c5trained.recommend ["m"] none none 10 = [c5trained.scoreCandidate ["m"] none profC] := by
  rw [CrewRecommender.recommend, c5trained_scored]
  simp

theorem c5loaded_recommend :
    c5loaded.recommend ["m"] none none 10 = [c5loaded.scoreCandidate ["m"] none profC] := by
  rw [CrewRecommender.recommend, c5loaded_scored]
  simp

/-- Counterexample to C5 as stated: loading a saved model into a fresh
recommender built over the same dataset but a *different* configuration
does not reproduce the original `recommend` output — the rule scorer
keeps the fresh construction-time config, which `load` never replaces. -/
theorem C5_fresh_config_counterexample :
    (c5loaded.recommend ["m"] none none 10).map Recommendation.rule_score = [9] ∧
      (c5trained.recommend ["m"] none none 10).map Recommendation.rule_score = [6] ∧
      c5loaded.recommend ["m"] none none 10 ≠ c5trained.recommend ["m"] none none 10 := by
  refine ⟨?_, ?_, ?_⟩
  · rw [c5loaded_recommend, List.map_cons, List.map_nil, c5loaded_rule_score]
  · rw [c5trained_recommend, List.map_cons, List.map_nil, c5trained_rule_score]
  · intro h
    have h2 := congrArg (List.map Recommendation.rule_score) h
    rw [c5loaded_recommend, c5trained_recommend, List.map_cons, List.map_nil,
      List.map_cons, List.map_nil, c5loaded_rule_score, c5trained_rule_score] at h2
    have h3 : (9 : ℚ) = 6 := by injection h2
    norm_num at h3

/-! ### Claim C10 — `load_config` mutates the module-level defaults -/

/-- Nested two-level lookup in an untyped config dict. -/
def configLookup2 (d : CDict) (k1 k2 : String) : Option CVal :=
  match lookupKey d k1 with
  | some (CVal.dict inner) => lookupKey inner k2
  | _ => none

/-- Claim C10: `load_config` copies `DEFAULT_CONFIG` only shallowly, so
merging a user config with a nested `learning` section mutates the
module-level default's nested dict in place; a subsequent
`load_config()` call with no config path returns the previously merged
user value (smoothing factor 1/2) instead of the pristine default
(1/10), i.e. the global default configuration is changed. -/
theorem C10_load_config_mutates_defaults :
    configLookup2
        (load_config
          (load_config DEFAULT_CONFIG
            (some [("learning", CVal.dict [("smoothing_factor", CVal.num (1/2))])])).2
          none).1
        "learning" "smoothing_factor" = some (CVal.num (1/2)) ∧
      (load_config
          (load_config DEFAULT_CONFIG
            (some [("learning", CVal.dict [("smoothing_factor", CVal.num (1/2))])])).2
          none).1 ≠ DEFAULT_CONFIG := by
  constructor
  · rfl
  · intro h
    have h2 : configLookup2
        (load_config
          (load_config DEFAULT_CONFIG
            (some [("learning", CVal.dict [("smoothing_factor", CVal.num (1/2))])])).2
          none).1
        "learning" "smoothing_factor" =
        configLookup2 DEFAULT_CONFIG "learning" "smoothing_factor" := by rw [h]
    have h3 : some (CVal.num (1/2)) = some (CVal.num (1/10)) := h2
    injection h3 with h4
    injection h4 with h5
    norm_num at h5
